import Mathlib

/-!
# drawthings_go: request pipeline, validator and error taxonomy

A shallow embedding of the Go client library for the Draw Things HTTP API.

* Go `int` is embedded as `Int` (no arithmetic is performed on these values, only
  comparisons against constants, so the machine width never matters).
* Go `float64` is embedded as `GoFloat`: NaN, the two infinities, or a finite value given
  by its exact rational value.  Go's comparison operators on floats are the IEEE ones.
* Go `string` is embedded as `String`.
* Go's `error` interface is embedded as `GoError`, whose constructor `nil` is the nil
  interface value and whose other constructors are the dynamic types that occur.
* Standard-library behaviour that the repository does not define (JSON encoding and
  decoding, the HTTP round trip, `%.2f` rendering) is taken as a parameter (`Env`).
-/

namespace DrawThings

/-! ## Values -/

/-- Go `float64`: not-a-number, an infinity, or a finite value with its exact rational value
(negative zero is identified with zero: Go's comparisons do not distinguish them). -/
inductive GoFloat where
  | nan
  | negInf
  | posInf
  | fin (q : ℚ)
  deriving DecidableEq

namespace GoFloat

/-- IEEE-754 `<` as Go evaluates it: every comparison involving NaN is false. -/
def lt : GoFloat → GoFloat → Bool
  | nan, _ => false
  | _, nan => false
  | negInf, negInf => false
  | negInf, _ => true
  | _, negInf => false
  | posInf, _ => false
  | fin _, posInf => true
  | fin a, fin b => decide (a < b)

/-- IEEE-754 `>`: `a > b` is `b < a`. -/
def gt (a b : GoFloat) : Bool := lt b a

/-- Membership of the closed interval `[lo, hi]`: the value is a finite number `q` with
`lo ≤ q ≤ hi`.  NaN and the infinities are in no interval. -/
def within (lo hi : ℚ) : GoFloat → Bool
  | fin q => decide (lo ≤ q ∧ q ≤ hi)
  | _ => false

/-- IEEE-754 `==`: NaN is equal to nothing, itself included. -/
def eq : GoFloat → GoFloat → Bool
  | negInf, negInf => true
  | posInf, posInf => true
  | fin a, fin b => decide (a = b)
  | _, _ => false

end GoFloat

/-- Go's `error` interface.  `nil` is the nil interface value; the other constructors are the
dynamic types of error values occurring in the library. -/
inductive GoError where
  /-- the nil error -/
  | nil
  /-- an error made by `fmt.Errorf` without `%w` (or `errors.New`): only a message -/
  | errorString (msg : String)
  /-- an error made by `fmt.Errorf` with `%w`: the formatted message and the wrapped error -/
  | wrapError (msg : String) (err : GoError)
  /-- an error value produced inside the standard library, with its message -/
  | lib (msg : String)
  /-- the type `*httpclient.HTTPError` -/
  | httpError (StatusCode : Int) (Status : String) (Body : String)
  /-- the type `*APIError` -/
  | apiError (StatusCode : Int) (Message : String) (Body : String)
  /-- the type `*ValidationError` -/
  | validationError (Field : String) (Message : String)
  /-- the type `*NetworkError` -/
  | networkError (Message : String) (Err : GoError)
  /-- the type `*DecodeError` -/
  | decodeError (Message : String) (Err : GoError)
  deriving DecidableEq

/-- Rendering of an `int` by the verb `%d`. -/
def fmtInt (n : Int) : String := toString n

namespace GoError

/-- The method `Error()` of each error type (`errors.go`, `internal/http/client.go`). -/
def Error : GoError → String
  | nil => ""
  | errorString msg => msg
  | wrapError msg _ => msg
  | lib msg => msg
  | httpError sc st _ => "HTTP " ++ fmtInt sc ++ ": " ++ st
  | apiError sc m b =>
    if m ≠ "" then "API error (status " ++ fmtInt sc ++ "): " ++ m
    else "API error (status " ++ fmtInt sc ++ "): " ++ b
  | validationError f m =>
    if f ≠ "" then "validation error for field '" ++ f ++ "': " ++ m
    else "validation error: " ++ m
  | networkError m e =>
    if e ≠ nil then "network error: " ++ m ++ ": " ++ Error e
    else "network error: " ++ m
  | decodeError m e =>
    if e ≠ nil then "decode error: " ++ m ++ ": " ++ Error e
    else "decode error: " ++ m

/-- The method `Unwrap()`: defined for `*NetworkError`, `*DecodeError` and for the errors of
`fmt.Errorf` with `%w`; `nil` for error types without the method. -/
def Unwrap : GoError → GoError
  | wrapError _ e => e
  | networkError _ e => e
  | decodeError _ e => e
  | _ => nil

end GoError

/-- The call `fmt.Errorf(text + "%w", err)`: the message ends with `err.Error()` and the result
wraps `err`. -/
def errorfW (text : String) (err : GoError) : GoError :=
  GoError.wrapError (text ++ err.Error) err

/-! ## Error taxonomy (`errors.go`) -/

/-- Go `IsAPIError`: the type assertion `err.(*APIError)`. -/
def IsAPIError : GoError → Bool
  | .apiError _ _ _ => true
  | _ => false

/-- Go `IsValidationError`: the type assertion `err.(*ValidationError)`. -/
def IsValidationError : GoError → Bool
  | .validationError _ _ => true
  | _ => false

/-- Go `IsNetworkError`: the type assertion `err.(*NetworkError)`. -/
def IsNetworkError : GoError → Bool
  | .networkError _ _ => true
  | _ => false

/-- Go `IsDecodeError`: the type assertion `err.(*DecodeError)`. -/
def IsDecodeError : GoError → Bool
  | .decodeError _ _ => true
  | _ => false

/-- Go `NewValidationError`. -/
def NewValidationError (field message : String) : GoError :=
  .validationError field message

/-- Go `NewNetworkError`. -/
def NewNetworkError (message : String) (err : GoError) : GoError :=
  .networkError message err

/-- Go `NewDecodeError`. -/
def NewDecodeError (message : String) (err : GoError) : GoError :=
  .decodeError message err

/-! ## Request and response types (`types.go`) -/

/-- Go `TextToImageRequest`. -/
structure TextToImageRequest where
  Prompt : String
  NegativePrompt : String
  Steps : Int
  GuidanceScale : GoFloat
  Width : Int
  Height : Int
  Seed : Int
  deriving DecidableEq

/-- Go `TextToImageResponse`: `Images` is a slice of strings (a nil slice is the empty list). -/
structure TextToImageResponse where
  Images : List String
  deriving DecidableEq

/-- Go `(*TextToImageRequest).SetDefaults`: the request after the in-place update. -/
def SetDefaults (r : TextToImageRequest) : TextToImageRequest :=
  let r := if r.Steps = 0 then { r with Steps := 20 } else r
  let r := if GoFloat.eq r.GuidanceScale (.fin 0) then { r with GuidanceScale := .fin 4 } else r
  let r := if r.Width = 0 then { r with Width := 512 } else r
  let r := if r.Height = 0 then { r with Height := 512 } else r
  let r := if r.Seed = 0 then { r with Seed := -1 } else r
  r

/-! ## Validator (`internal/validation/params.go`) -/

/-- Go `ValidateTextToImageRequest`.  `fmtF` is the rendering of a `float64` by the verb `%.2f`
(package `fmt`). -/
def ValidateTextToImageRequest (fmtF : GoFloat → String) (prompt : String) (steps : Int)
    (guidanceScale : GoFloat) (width height : Int) : GoError :=
  if prompt = "" then
    .errorString "validation error for field 'prompt': prompt is required and cannot be empty"
  else if steps < 1 ∨ steps > 150 then
    .errorString ("validation error for field 'steps': steps must be between 1 and 150, got "
      ++ fmtInt steps)
  else if GoFloat.lt guidanceScale (.fin 1) ∨ GoFloat.gt guidanceScale (.fin 20) then
    .errorString ("validation error for field 'guidance_scale': guidance_scale must be between 1.0 and 20.0, got "
      ++ fmtF guidanceScale)
  else if width < 64 ∨ width > 4096 then
    .errorString ("validation error for field 'width': width must be between 64 and 4096 pixels, got "
      ++ fmtInt width)
  else if height < 64 ∨ height > 4096 then
    .errorString ("validation error for field 'height': height must be between 64 and 4096 pixels, got "
      ++ fmtInt height)
  else
    .nil

/-! ## Transport and decoder (`internal/http/client.go`) -/

/-- A `time.Duration`, in nanoseconds. -/
abbrev Duration := Int

/-- A `context.Context` handed through to the HTTP library (an identifier of the context). -/
abbrev Context := Nat

/-- A value implementing the `Logger` interface (an identifier of the sink). -/
structure Logger where
  id : Nat
  deriving DecidableEq

/-- An `*http.Response` as far as the library looks at it: status code, status text, and what
`io.ReadAll(resp.Body)` returns (the bytes and the read error). -/
structure HttpResponse where
  StatusCode : Int
  Status : String
  Body : String
  ReadErr : GoError
  deriving DecidableEq

/-- The `*http.Request` built by `PostJSON`: method POST, the URL, the body reader (absent when
`body` is nil) and the `Content-Type` header. -/
structure HttpRequest where
  ctx : Context
  method : String
  url : String
  body : Option String
  contentType : String
  deriving DecidableEq

/-- Go `httpclient.Client`: the timeout of the wrapped `http.Client` and the logger. -/
structure HttpClient where
  timeout : Duration
  logger : Option Logger
  deriving DecidableEq

/-- Go `httpclient.NewClient`. -/
def HttpClient.NewClient (timeout : Duration) (logger : Option Logger) : HttpClient :=
  { timeout := timeout, logger := logger }

/-- The effects a call performs, in order. -/
inductive Event where
  /-- entry into `PostJSON` with this URL -/
  | postJSON (url : String)
  /-- a line emitted through `logger.Logf` -/
  | log (logger : Logger) (line : String)
  /-- the call `c.httpClient.Do(req)`: one HTTP request was issued -/
  | httpDo (timeout : Duration) (req : HttpRequest)
  /-- the deferred `resp.Body.Close()` -/
  | bodyClose
  /-- the call `os.MkdirAll(dir, perm)` -/
  | mkdirAll (dir : String) (perm : Nat)
  /-- the call `os.WriteFile(path, data, perm)` -/
  | writeFile (path : String) (data : List UInt8) (perm : Nat)
  deriving DecidableEq

/-- How a call ends: it returns, or it panics on a nil pointer dereference. -/
inductive Outcome (α : Type) where
  | returned (a : α)
  | panicked
  deriving DecidableEq

/-- A call: the effects it performed and how it ended. -/
structure Exec (α : Type) where
  trace : List Event
  out : Outcome α

/-- The standard-library behaviour the library relies on.
* `marshal`: `json.Marshal` of the request (bytes and error);
* `newRequest`: the error of `http.NewRequestWithContext` for a context, method, URL and body;
* `roundTrip`: `(*http.Client).Do` for a client timeout and a request (response and error);
* `unmarshal`: `json.Unmarshal` of a body into a fresh `TextToImageResponse` (the value left
  in the target and the error);
* `fmtFloat`: the verb `%.2f`. -/
structure Env where
  marshal : TextToImageRequest → String × GoError
  newRequest : Context → String → String → Option String → GoError
  roundTrip : Duration → HttpRequest → Option HttpResponse × GoError
  unmarshal : String → TextToImageResponse × GoError
  fmtFloat : GoFloat → String

/-- The lines `c.logger.Logf(...)` guarded by `c.logger != nil`. -/
def logIf (logger : Option Logger) (line : String) : List Event :=
  match logger with
  | some l => [Event.log l line]
  | none => []

/-- Second half of `PostJSON`, from `http.NewRequestWithContext` on; `t` are the effects so
far and `reqBody` the body reader. -/
def PostJSON.send (env : Env) (c : Option HttpClient) (ctx : Context) (url : String)
    (reqBody : Option String) (t : List Event) : Exec (Option HttpResponse × GoError) :=
  let err := env.newRequest ctx "POST" url reqBody
  if err ≠ .nil then
    ⟨t, .returned (none, errorfW "failed to create request: " err)⟩
  else
    match c with
    | none => ⟨t, .panicked⟩
    | some hc =>
      let req : HttpRequest :=
        { ctx := ctx, method := "POST", url := url, body := reqBody,
          contentType := "application/json" }
      let t := t ++ [Event.httpDo hc.timeout req]
      match env.roundTrip hc.timeout req with
      | (resp, err) =>
        if err ≠ .nil then
          ⟨t, .returned (none, errorfW "request failed: " err)⟩
        else
          match hc.logger, resp with
          | none, _ => ⟨t, .returned (resp, .nil)⟩
          | some _, none => ⟨t, .panicked⟩
          | some l, some r =>
            ⟨t ++ [Event.log l ("Response status: " ++ r.Status)], .returned (some r, .nil)⟩

/-- Go `(*httpclient.Client).PostJSON`.  The receiver `c` may be a nil pointer (`none`); `body` is
the request passed as `interface{}` (`none` for a nil body). -/
def PostJSON (env : Env) (c : Option HttpClient) (ctx : Context) (url : String)
    (body : Option TextToImageRequest) : Exec (Option HttpResponse × GoError) :=
  match body with
  | none => PostJSON.send env c ctx url none [Event.postJSON url]
  | some b =>
    match env.marshal b with
    | (jsonData, err) =>
      if err ≠ .nil then
        ⟨[Event.postJSON url],
          .returned (none, errorfW "failed to marshal request body: " err)⟩
      else
        match c with
        | none => ⟨[Event.postJSON url], .panicked⟩
        | some hc =>
          PostJSON.send env c ctx url (some jsonData)
            (Event.postJSON url ::
              logIf hc.logger ("POST " ++ url ++ "\nRequest body: " ++ jsonData))

/-- Go `(*httpclient.Client).DecodeJSONResponse` with a `*TextToImageResponse` target: the value
left in the target and the returned error. -/
def DecodeJSONResponse (env : Env) (c : Option HttpClient) (resp : Option HttpResponse) :
    Exec (TextToImageResponse × GoError) :=
  match resp with
  | none => ⟨[], .panicked⟩
  | some r =>
    if r.ReadErr ≠ .nil then
      ⟨[Event.bodyClose],
        .returned (⟨[]⟩, errorfW "failed to read response body: " r.ReadErr)⟩
    else
      match c with
      | none => ⟨[Event.bodyClose], .panicked⟩
      | some hc =>
        let t := logIf hc.logger ("Response body: " ++ r.Body)
        if r.StatusCode < 200 ∨ r.StatusCode ≥ 300 then
          ⟨t ++ [Event.bodyClose], .returned (⟨[]⟩, .httpError r.StatusCode r.Status r.Body)⟩
        else
          match env.unmarshal r.Body with
          | (v, err) =>
            if err ≠ .nil then
              ⟨t ++ [Event.bodyClose],
                .returned (v, errorfW "failed to unmarshal response: " err)⟩
            else
              ⟨t ++ [Event.bodyClose], .returned (v, .nil)⟩

/-! ## Client and request pipeline (`client.go`, `txt2img.go`) -/

/-- Go `Client`.  `httpClient` is a pointer and may be nil (`none`). -/
structure Client where
  baseURL : String
  httpClient : Option HttpClient
  timeout : Duration
  logger : Option Logger
  deriving DecidableEq

/-- Go `NewAPIError`: reads `StatusCode` and `Status` of the response. -/
def NewAPIError (resp : HttpResponse) (body : String) : GoError :=
  .apiError resp.StatusCode resp.Status body

/-- What a call of `GenerateImage` leaves behind: the request as mutated in place, the effects,
and the returned pair (result pointer, error). -/
structure GenerateImageRun where
  req : TextToImageRequest
  trace : List Event
  out : Outcome (Option TextToImageResponse × GoError)

/-- Go `(*Client).GenerateImage`. -/
def GenerateImage (env : Env) (c : Client) (ctx : Context) (req : TextToImageRequest) :
    GenerateImageRun :=
  let req := SetDefaults req
  let err := ValidateTextToImageRequest env.fmtFloat req.Prompt req.Steps req.GuidanceScale
    req.Width req.Height
  if err ≠ .nil then
    ⟨req, [], .returned (none, NewValidationError "" err.Error)⟩
  else
    let url := c.baseURL ++ "/sdapi/v1/txt2img"
    let post := PostJSON env c.httpClient ctx url (some req)
    match post.out with
    | .panicked => ⟨req, post.trace, .panicked⟩
    | .returned (resp, err) =>
      if err ≠ .nil then
        ⟨req, post.trace, .returned (none, NewNetworkError "API request failed" err)⟩
      else
        let dec := DecodeJSONResponse env c.httpClient resp
        let t := post.trace ++ dec.trace
        match dec.out with
        | .panicked => ⟨req, t, .panicked⟩
        | .returned (apiResp, err) =>
          if err ≠ .nil then
            match err with
            | .httpError sc st body =>
              ⟨req, t, .returned (none,
                NewAPIError { StatusCode := sc, Status := st, Body := "", ReadErr := .nil } body)⟩
            | _ => ⟨req, t, .returned (none, NewNetworkError "failed to decode response" err)⟩
          else if apiResp.Images.length = 0 then
            ⟨req, t, .returned (none, NewDecodeError "no images in response" .nil)⟩
          else
            ⟨req, t, .returned (some apiResp, .nil)⟩

/-- The behaviour of the host the save path relies on.
* `base64Decode`: `base64.StdEncoding.DecodeString` (bytes and error);
* `filepathDir`: `filepath.Dir`;
* `mkdirAll`: the error of `os.MkdirAll` for a directory and a permission;
* `writeFile`: the error of `os.WriteFile` for a path, the data and a permission. -/
structure Host where
  base64Decode : String → List UInt8 × GoError
  filepathDir : String → String
  mkdirAll : String → Nat → GoError
  writeFile : String → List UInt8 → Nat → GoError

/-- What a call of `GenerateImageAndSave` leaves behind: the request as mutated in place, the
effects, and the returned error. -/
structure SaveRun where
  req : TextToImageRequest
  trace : List Event
  out : Outcome GoError

/-- Last step of `GenerateImageAndSave`: `os.WriteFile(outputPath, imageData, 0644)`; `t` are
the effects so far. -/
def GenerateImageAndSave.write (host : Host) (req : TextToImageRequest) (t : List Event)
    (outputPath : String) (imageData : List UInt8) : SaveRun :=
  let t := t ++ [Event.writeFile outputPath imageData 0o644]
  let err := host.writeFile outputPath imageData 0o644
  if err ≠ .nil then
    ⟨req, t, .returned (errorfW "failed to write image file: " err)⟩
  else
    ⟨req, t, .returned .nil⟩

/-- Go `(*Client).GenerateImageAndSave`.  Reading `resp.Images` through a nil `resp`, and
indexing an empty `resp.Images`, are runtime panics. -/
def GenerateImageAndSave (env : Env) (host : Host) (c : Client) (ctx : Context)
    (req : TextToImageRequest) (outputPath : String) : SaveRun :=
  let gen := GenerateImage env c ctx req
  match gen.out with
  | .panicked => ⟨gen.req, gen.trace, .panicked⟩
  | .returned (resp, err) =>
    if err ≠ .nil then
      ⟨gen.req, gen.trace, .returned err⟩
    else
      match resp with
      | none => ⟨gen.req, gen.trace, .panicked⟩
      | some r =>
        if r.Images.length = 0 then
          ⟨gen.req, gen.trace, .returned (NewDecodeError "no images in response" .nil)⟩
        else
          match r.Images with
          | [] => ⟨gen.req, gen.trace, .panicked⟩
          | first :: _ =>
            match host.base64Decode first with
            | (imageData, err) =>
              if err ≠ .nil then
                ⟨gen.req, gen.trace,
                  .returned (NewDecodeError "failed to decode base64 image data" err)⟩
              else
                let dir := host.filepathDir outputPath
                if dir ≠ "." ∧ dir ≠ "" then
                  let t := gen.trace ++ [Event.mkdirAll dir 0o755]
                  let err := host.mkdirAll dir 0o755
                  if err ≠ .nil then
                    ⟨gen.req, t, .returned (errorfW "failed to create output directory: " err)⟩
                  else
                    GenerateImageAndSave.write host gen.req t outputPath imageData
                else
                  GenerateImageAndSave.write host gen.req gen.trace outputPath imageData

/-! ## Client construction (`client.go`) -/

/-- Go `DefaultBaseURL`. -/
def DefaultBaseURL : String := "http://127.0.0.1:7860"

/-- Go `DefaultTimeout`: `5 * time.Minute`, in nanoseconds. -/
def DefaultTimeout : Duration := 5 * (60 * 1000000000)

/-- Go `Option`: a function that configures a `Client` (the client after the update). -/
abbrev ClientOption := Client → Client

/-- Go `WithBaseURL`. -/
def WithBaseURL (baseURL : String) : ClientOption :=
  fun c => { c with baseURL := baseURL }

/-- Go `WithTimeout`. -/
def WithTimeout (timeout : Duration) : ClientOption :=
  fun c => { c with timeout := timeout, httpClient := some (HttpClient.NewClient timeout c.logger) }

/-- Go `WithLogger`; a nil logger is `none`. -/
def WithLogger (logger : Option Logger) : ClientOption :=
  fun c =>
    let timeout := if c.timeout = 0 then DefaultTimeout else c.timeout
    { c with logger := logger, httpClient := some (HttpClient.NewClient timeout logger) }

/-- Go `NewClient`. -/
def NewClient (opts : List ClientOption) : Client :=
  let c := opts.foldl (fun c opt => opt c)
    { baseURL := DefaultBaseURL, httpClient := none, timeout := DefaultTimeout, logger := none }
  if c.httpClient = none then
    { c with httpClient := some (HttpClient.NewClient c.timeout c.logger) }
  else c

/-! ## JSON field tags of `TextToImageRequest` (`types.go`) -/

/-- A JSON value of the kinds the request has: a string, an integer, a number. -/
inductive JsonValue where
  | str (s : String)
  | int (n : Int)
  | num (g : GoFloat)
  deriving DecidableEq

/-- The members of the JSON object that `json.Marshal` emits for a request, as the field tags
select them, in order.  The key `prompt` is always present; a field tagged `omitempty` is left
out when it is empty: a string when it is `""`, a numeric field when it is zero. -/
def jsonMembers (r : TextToImageRequest) : List (String × JsonValue) :=
  [("prompt", .str r.Prompt)] ++
  (if r.NegativePrompt = "" then [] else [("negative_prompt", .str r.NegativePrompt)]) ++
  (if r.Steps = 0 then [] else [("steps", .int r.Steps)]) ++
  (if GoFloat.eq r.GuidanceScale (.fin 0) then []
    else [("guidance_scale", .num r.GuidanceScale)]) ++
  (if r.Width = 0 then [] else [("width", .int r.Width)]) ++
  (if r.Height = 0 then [] else [("height", .int r.Height)]) ++
  (if r.Seed = 0 then [] else [("seed", .int r.Seed)])

/-! ## The validator's checks as the specification lists them -/

/-- The five checks in the order of the specification: the field each one reports, and whether
the input violates it.  A guidance scale violates its check when it is outside `[1.0, 20.0]`,
that is, when it is not a number between 1.0 and 20.0. -/
def checks (prompt : String) (steps : Int) (guidanceScale : GoFloat) (width height : Int) :
    List (String × Bool) :=
  [ ("prompt", decide (prompt = "")),
    ("steps", decide (steps < 1 ∨ steps > 150)),
    ("guidance_scale", !(guidanceScale.within 1 20)),
    ("width", decide (width < 64 ∨ width > 4096)),
    ("height", decide (height < 64 ∨ height > 4096)) ]

/-- The field of the first violated check in that order, if any check is violated. -/
def firstViolated (prompt : String) (steps : Int) (guidanceScale : GoFloat)
    (width height : Int) : Option String :=
  ((checks prompt steps guidanceScale width height).find? (fun c => c.2)).map (fun c => c.1)

/-! ## The two calls `GenerateImage` makes, named for the statements below -/

/-- The validator call of `GenerateImage`: on the fields of the request after `SetDefaults`. -/
def validated (env : Env) (req : TextToImageRequest) : GoError :=
  ValidateTextToImageRequest env.fmtFloat (SetDefaults req).Prompt (SetDefaults req).Steps
    (SetDefaults req).GuidanceScale (SetDefaults req).Width (SetDefaults req).Height

/-- The transport call of `GenerateImage`: `PostJSON` on the endpoint URL with the defaulted
request as body. -/
def transport (env : Env) (c : Client) (ctx : Context) (req : TextToImageRequest) :
    Exec (Option HttpResponse × GoError) :=
  PostJSON env c.httpClient ctx (c.baseURL ++ "/sdapi/v1/txt2img") (some (SetDefaults req))

/-- Number of invocations of `PostJSON` in a trace. -/
def postJSONCalls (t : List Event) : Nat :=
  t.countP (fun e => match e with | .postJSON _ => true | _ => false)

/-- Number of HTTP requests issued in a trace. -/
def httpRequestsIssued (t : List Event) : Nat :=
  t.countP (fun e => match e with | .httpDo _ _ => true | _ => false)

/-- Number of the four classification predicates that hold of an error. -/
def kindCount (e : GoError) : Nat :=
  (if IsValidationError e then 1 else 0) + (if IsNetworkError e then 1 else 0) +
  (if IsAPIError e then 1 else 0) + (if IsDecodeError e then 1 else 0)

/-- Number of filesystem operations (directory creations and file writes) in a trace. -/
def fsOperations (t : List Event) : Nat :=
  t.countP (fun e => match e with | .mkdirAll _ _ => true | .writeFile _ _ _ => true | _ => false)

/-- The file writes of a trace, in order: path and content. -/
def filesWritten (t : List Event) : List (String × List UInt8) :=
  t.filterMap (fun e => match e with | .writeFile path data _ => some (path, data) | _ => none)

/-! ## Lists of options, as the specification speaks of them -/

/-- A call of one of the three option constructors of `client.go`. -/
inductive OptionCall where
  | withBaseURL (baseURL : String)
  | withTimeout (timeout : Duration)
  | withLogger (logger : Option Logger)
  deriving DecidableEq

/-- The option a constructor call builds. -/
def OptionCall.toOption : OptionCall → ClientOption
  | .withBaseURL baseURL => WithBaseURL baseURL
  | .withTimeout timeout => WithTimeout timeout
  | .withLogger logger => WithLogger logger

/-- The argument of the last `WithBaseURL` in a list of calls, if there is one. -/
def lastBaseURL (calls : List OptionCall) : Option String :=
  (calls.filterMap (fun o => match o with | .withBaseURL u => some u | _ => none)).getLast?

/-- The argument of the last `WithTimeout` in a list of calls, if there is one. -/
def lastTimeout (calls : List OptionCall) : Option Duration :=
  (calls.filterMap (fun o => match o with | .withTimeout t => some t | _ => none)).getLast?

/-- Whether the last call that is a `WithTimeout` or a `WithLogger` is a `WithLogger`. -/
def endsWithLogger (calls : List OptionCall) : Bool :=
  match (calls.filter (fun o => match o with | .withBaseURL _ => false | _ => true)).getLast? with
  | some (.withLogger _) => true
  | _ => false

/-! ## Concrete inputs used in the checks below -/

/-- A `%.2f` stand-in that renders every value as the same text. -/
def constFmt : GoFloat → String := fun _ => "?"

/-- Standard-library behaviour for the examples: serialisation and request construction
succeed, the server's answer is `answer`, and decoding the body gives `decoded`. -/
def stubEnv (answer : Option HttpResponse × GoError) (decoded : TextToImageResponse × GoError) :
    Env :=
  { marshal := fun r => ("prompt=" ++ r.Prompt, .nil)
    newRequest := fun _ _ _ _ => .nil
    roundTrip := fun _ _ => answer
    unmarshal := fun _ => decoded
    fmtFloat := constFmt }

/-- A client as `NewClient()` builds it: default base URL, timeout of five minutes, no logger. -/
def localClient : Client :=
  { baseURL := "http://127.0.0.1:7860"
    httpClient := some { timeout := 300000000000, logger := none }
    timeout := 300000000000
    logger := none }

/-- A request with only the prompt set. -/
def catRequest : TextToImageRequest :=
  { Prompt := "a cat", NegativePrompt := "", Steps := 0, GuidanceScale := .fin 0, Width := 0,
    Height := 0, Seed := 0 }

/-- A request without a prompt. -/
def noPromptRequest : TextToImageRequest :=
  { Prompt := "", NegativePrompt := "", Steps := 20, GuidanceScale := .fin 4, Width := 512,
    Height := 512, Seed := 7 }

/-- A response with the given status code, status text and body, whose body can be read. -/
def response (code : Int) (status body : String) : HttpResponse :=
  { StatusCode := code, Status := status, Body := body, ReadErr := .nil }

/-- The first eight bytes of every PNG file. -/
def pngSignature : List UInt8 := [137, 80, 78, 71, 13, 10, 26, 10]

/-- Host behaviour for the examples: the one base64 text known to the decoder is the encoding
of the PNG signature; the one path with a parent directory is `out/cat.png`; directory creation
and file writing succeed. -/
def stubHost : Host :=
  { base64Decode := fun s =>
      if s = "iVBORw0KGgo=" then (pngSignature, .nil)
      else ([], .lib "illegal base64 data at input byte 0")
    filepathDir := fun path => if path = "out/cat.png" then "out" else "."
    mkdirAll := fun _ _ => .nil
    writeFile := fun _ _ _ => .nil }

/-- A rendering of JSON members for the examples: `key=value` joined by semicolons. -/
def renderMembers (members : List (String × JsonValue)) : String × GoError :=
  (";".intercalate (members.map (fun m =>
      m.1 ++ "=" ++
        (match m.2 with
          | .str s => s
          | .int n => fmtInt n
          | .num g => constFmt g))),
    .nil)

/-- Standard-library behaviour for the examples, with a serialisation that shows every member
selected by the field tags; the rest is as in `stubEnv`. -/
def tagEnv (answer : Option HttpResponse × GoError) (decoded : TextToImageResponse × GoError) :
    Env :=
  { stubEnv answer decoded with marshal := fun r => renderMembers (jsonMembers r) }

/-! ## The validator -/

/-- The guidance check fires exactly when the value is not a finite number in `[1, 20]`,
provided it is not NaN. -/
theorem guidance_check_iff (g : GoFloat) (hg : g ≠ .nan) :
    (GoFloat.lt g (.fin 1) = true ∨ GoFloat.gt g (.fin 20) = true) ↔
      ¬ ∃ q : ℚ, g = .fin q ∧ 1 ≤ q ∧ q ≤ 20 := by
  cases g with
  | nan => exact absurd rfl hg
  | negInf => simp [GoFloat.lt, GoFloat.gt]
  | posInf => simp [GoFloat.lt, GoFloat.gt]
  | fin q =>
    simp only [GoFloat.lt, GoFloat.gt, decide_eq_true_eq, GoFloat.fin.injEq, not_exists,
      not_and, not_le]
    constructor
    · rintro (h | h) q' rfl h1
      · exact absurd h1 (not_le.mpr h)
      · exact h
    · intro h
      by_cases h1 : q < 1
      · exact Or.inl h1
      · exact Or.inr (h q rfl (not_lt.mp h1))

/-- C2. For every prompt, all integers steps, width, height and every guidance scale that is
not NaN, `ValidateTextToImageRequest` returns nil if and only if the prompt is non-empty,
`1 ≤ steps ≤ 150`, the guidance scale is a number in `[1.0, 20.0]`, and width and height are
in `[64, 4096]`. -/
theorem ValidateTextToImageRequest_nil_iff (fmtF : GoFloat → String) (prompt : String)
    (steps : Int) (g : GoFloat) (width height : Int) (hg : g ≠ .nan) :
    ValidateTextToImageRequest fmtF prompt steps g width height = .nil ↔
      (prompt ≠ "" ∧ (1 ≤ steps ∧ steps ≤ 150) ∧ (∃ q : ℚ, g = .fin q ∧ 1 ≤ q ∧ q ≤ 20) ∧
        (64 ≤ width ∧ width ≤ 4096) ∧ (64 ≤ height ∧ height ≤ 4096)) := by
  have hG := guidance_check_iff g hg
  unfold ValidateTextToImageRequest
  by_cases hp : prompt = ""
  · simp [hp]
  by_cases hs : steps < 1 ∨ steps > 150
  · simp only [hp, hs, if_true, if_false]
    constructor
    · intro h; exact absurd h (by simp)
    · rintro ⟨_, ⟨h1, h2⟩, _⟩; omega
  by_cases hgs : GoFloat.lt g (.fin 1) = true ∨ GoFloat.gt g (.fin 20) = true
  · simp only [hp, hs, hgs, if_true, if_false]
    constructor
    · intro h; exact absurd h (by simp)
    · rintro ⟨_, _, h3, _⟩; exact absurd h3 (hG.mp hgs)
  have hq : ∃ q : ℚ, g = .fin q ∧ 1 ≤ q ∧ q ≤ 20 := by
    by_contra hc; exact hgs (hG.mpr hc)
  by_cases hw : width < 64 ∨ width > 4096
  · simp only [hp, hs, hgs, hw, if_true, if_false]
    constructor
    · intro h; exact absurd h (by simp)
    · rintro ⟨_, _, _, ⟨h1, h2⟩, _⟩; omega
  by_cases hh : height < 64 ∨ height > 4096
  · simp only [hp, hs, hgs, hw, hh, if_true, if_false]
    constructor
    · intro h; exact absurd h (by simp)
    · rintro ⟨_, _, _, _, ⟨h1, h2⟩⟩; omega
  simp only [hp, hs, hgs, hw, hh, if_false, true_iff]
  refine ⟨hp, ?_, hq, ?_, ?_⟩ <;> omega

/-- At the six boundary values the request is accepted: steps 1 and 150, guidance scale 1.0
and 20.0, width 64 and height 4096 (and the other way round). -/
theorem ValidateTextToImageRequest_nil_iff_witness :
    ValidateTextToImageRequest constFmt "a cat" 1 (.fin 1) 64 4096 = .nil ∧
      ValidateTextToImageRequest constFmt "a cat" 150 (.fin 20) 4096 64 = .nil :=
  ⟨(ValidateTextToImageRequest_nil_iff constFmt "a cat" 1 (.fin 1) 64 4096 (by decide)).mpr
      ⟨by decide, by decide, ⟨1, rfl, by norm_num, by norm_num⟩, by decide, by decide⟩,
   (ValidateTextToImageRequest_nil_iff constFmt "a cat" 150 (.fin 20) 4096 64 (by decide)).mpr
      ⟨by decide, by decide, ⟨20, rfl, by norm_num, by norm_num⟩, by decide, by decide⟩⟩

/-- For a guidance scale that is not NaN, being outside `[1.0, 20.0]` is what the validator's
comparison tests. -/
theorem GoFloat.not_within_eq (g : GoFloat) (hg : g ≠ .nan) :
    (!(g.within 1 20)) = (GoFloat.lt g (.fin 1) || GoFloat.gt g (.fin 20)) := by
  cases g with
  | nan => exact absurd rfl hg
  | negInf => rfl
  | posInf => rfl
  | fin q =>
    rw [Bool.eq_iff_iff]
    simp only [GoFloat.within, GoFloat.lt, GoFloat.gt, Bool.not_eq_true', decide_eq_false_iff_not,
      not_and, not_le, Bool.or_eq_true, decide_eq_true_eq]
    constructor
    · intro h
      by_cases h1 : q < 1
      · exact Or.inl h1
      · exact Or.inr (h (not_lt.mp h1))
    · rintro (h | h) h1
      · exact absurd h1 (not_le.mpr h)
      · exact h

/-- The part of C3 the code satisfies: when the guidance scale is not NaN and at least one
check is violated, the error message of `ValidateTextToImageRequest` names the field of the
first violated check in the order prompt, steps, guidance_scale, width, height, whatever the
values of the fields checked after it. -/
theorem ValidateTextToImageRequest_reports_first_violation (fmtF : GoFloat → String)
    (prompt : String) (steps : Int) (g : GoFloat) (width height : Int) (name : String)
    (hg : g ≠ .nan)
    (hv : firstViolated prompt steps g width height = some name) :
    ∃ rest : String, ValidateTextToImageRequest fmtF prompt steps g width height =
      .errorString ("validation error for field '" ++ name ++ "': " ++ rest) := by
  have hc : checks prompt steps g width height =
      [ ("prompt", decide (prompt = "")),
        ("steps", decide (steps < 1 ∨ steps > 150)),
        ("guidance_scale", GoFloat.lt g (.fin 1) || GoFloat.gt g (.fin 20)),
        ("width", decide (width < 64 ∨ width > 4096)),
        ("height", decide (height < 64 ∨ height > 4096)) ] := by
    simp only [checks, GoFloat.not_within_eq g hg]
  unfold firstViolated at hv
  rw [hc] at hv
  unfold ValidateTextToImageRequest
  by_cases hp : prompt = ""
  · simp [hp] at hv
    subst hv
    exact ⟨"prompt is required and cannot be empty", by simp only [hp, if_true]; rfl⟩
  by_cases hs : steps < 1 ∨ steps > 150
  · simp [hp, hs] at hv
    subst hv
    refine ⟨"steps must be between 1 and 150, got " ++ fmtInt steps, ?_⟩
    simp only [hp, hs, if_true, if_false]
    rw [← String.append_assoc]; rfl
  by_cases hgs : GoFloat.lt g (.fin 1) = true ∨ GoFloat.gt g (.fin 20) = true
  · simp [hp, hs, hgs] at hv
    subst hv
    refine ⟨"guidance_scale must be between 1.0 and 20.0, got " ++ fmtF g, ?_⟩
    simp only [hp, hs, hgs, if_true, if_false]
    rw [← String.append_assoc]; rfl
  by_cases hw : width < 64 ∨ width > 4096
  · simp [hp, hs, hgs, hw] at hv
    subst hv
    refine ⟨"width must be between 64 and 4096 pixels, got " ++ fmtInt width, ?_⟩
    simp only [hp, hs, hgs, hw, if_true, if_false]
    rw [← String.append_assoc]; rfl
  by_cases hh : height < 64 ∨ height > 4096
  · simp [hp, hs, hgs, hw, hh] at hv
    subst hv
    refine ⟨"height must be between 64 and 4096 pixels, got " ++ fmtInt height, ?_⟩
    simp only [hp, hs, hgs, hw, hh, if_true, if_false]
    rw [← String.append_assoc]; rfl
  · simp [hp, hs, hgs, hw, hh] at hv

/-- A request on which four checks are violated at once; the first one is `steps`. -/
theorem ValidateTextToImageRequest_reports_first_violation_witness :
    firstViolated "a cat" 0 .posInf 5000 1 = some "steps" ∧
      ∃ rest : String, ValidateTextToImageRequest constFmt "a cat" 0 .posInf 5000 1 =
        .errorString ("validation error for field '" ++ "steps" ++ "': " ++ rest) :=
  ⟨by decide,
    ValidateTextToImageRequest_reports_first_violation constFmt "a cat" 0 .posInf 5000 1 "steps"
      (by decide) (by decide)⟩

/-- C3 fails on the code at a NaN guidance scale.  NaN is outside `[1.0, 20.0]`, so the
guidance_scale check is the first violated one; but the validator's comparisons are both false
for NaN: with a width of 5000 it reports the later field width, and with every other field in
range it reports nothing and returns nil. -/
theorem ValidateTextToImageRequest_nan_guidance :
    firstViolated "a cat" 20 .nan 5000 64 = some "guidance_scale" ∧
    ValidateTextToImageRequest constFmt "a cat" 20 .nan 5000 64 =
      .errorString
        "validation error for field 'width': width must be between 64 and 4096 pixels, got 5000" ∧
    firstViolated "a cat" 20 .nan 512 512 = some "guidance_scale" ∧
    ValidateTextToImageRequest constFmt "a cat" 20 .nan 512 512 = .nil := by
  refine ⟨by decide, by decide, by decide, by decide⟩

/-! ## Defaulting -/

/-- The float comparison `g == 0` holds exactly for the value zero. -/
theorem GoFloat.eq_zero_iff (g : GoFloat) : GoFloat.eq g (.fin 0) = true ↔ g = .fin 0 := by
  cases g <;> simp [GoFloat.eq]

/-- The prompt is never touched by `SetDefaults`. -/
theorem SetDefaults_Prompt (r : TextToImageRequest) : (SetDefaults r).Prompt = r.Prompt := by
  unfold SetDefaults
  by_cases h1 : r.Steps = 0 <;> by_cases h2 : r.GuidanceScale = .fin 0 <;>
    by_cases h3 : r.Width = 0 <;> by_cases h4 : r.Height = 0 <;>
    by_cases h5 : r.Seed = 0 <;>
    simp [h1, h2, h3, h4, h5, GoFloat.eq_zero_iff]

/-- C10. `SetDefaults` changes exactly the fields that are zero: Steps 0 becomes 20,
GuidanceScale 0 becomes 4.0, Width 0 and Height 0 become 512, Seed 0 becomes -1; a non-zero
field is left as it is, and so are Prompt and NegativePrompt. -/
theorem SetDefaults_fields (r : TextToImageRequest) :
    (SetDefaults r).Prompt = r.Prompt ∧
    (SetDefaults r).NegativePrompt = r.NegativePrompt ∧
    (SetDefaults r).Steps = (if r.Steps = 0 then 20 else r.Steps) ∧
    (SetDefaults r).GuidanceScale =
      (if r.GuidanceScale = .fin 0 then .fin 4 else r.GuidanceScale) ∧
    (SetDefaults r).Width = (if r.Width = 0 then 512 else r.Width) ∧
    (SetDefaults r).Height = (if r.Height = 0 then 512 else r.Height) ∧
    (SetDefaults r).Seed = (if r.Seed = 0 then -1 else r.Seed) := by
  unfold SetDefaults
  by_cases h1 : r.Steps = 0 <;> by_cases h2 : r.GuidanceScale = .fin 0 <;>
    by_cases h3 : r.Width = 0 <;> by_cases h4 : r.Height = 0 <;>
    by_cases h5 : r.Seed = 0 <;>
    simp [h1, h2, h3, h4, h5, GoFloat.eq_zero_iff]

/-! ## The request pipeline -/

/-- When the validator rejects the defaulted request, `GenerateImage` stops there. -/
theorem GenerateImage_rejected (env : Env) (c : Client) (ctx : Context)
    (req : TextToImageRequest) (hv : validated env req ≠ .nil) :
    GenerateImage env c ctx req =
      ⟨SetDefaults req, [], .returned (none, .validationError "" (validated env req).Error)⟩ := by
  unfold validated at hv
  simp only [GenerateImage, validated, NewValidationError, hv, ne_eq, not_false_eq_true, if_true]

/-- A nil error from `PostJSON` means the receiver was not a nil pointer. -/
theorem PostJSON_nil_error_client (env : Env) (c : Option HttpClient) (ctx : Context)
    (url : String) (body : Option TextToImageRequest) (r : Option HttpResponse)
    (h : (PostJSON env c ctx url body).out = .returned (r, .nil)) : ∃ hc, c = some hc := by
  cases c with
  | some hc => exact ⟨hc, rfl⟩
  | none =>
    exfalso
    cases body with
    | none =>
      simp only [PostJSON, PostJSON.send] at h
      split_ifs at h
      simp [errorfW] at h
    | some b =>
      simp only [PostJSON] at h
      split_ifs at h
      simp [errorfW] at h

/-- An error returned by `PostJSON` comes without a response and is a `%w` wrapper of the
non-nil library error that caused it (serialisation, request construction or round trip). -/
theorem PostJSON_error_wraps_cause (env : Env) (c : Option HttpClient) (ctx : Context)
    (url : String) (body : Option TextToImageRequest) (r : Option HttpResponse) (e : GoError)
    (h : (PostJSON env c ctx url body).out = .returned (r, e)) (he : e ≠ .nil) :
    r = none ∧ ∃ text cause, cause ≠ .nil ∧ e = errorfW text cause := by
  simp only [PostJSON, PostJSON.send] at h
  repeat' split at h
  all_goals first
    | (simp at h; done)
    | (simp only [Outcome.returned.injEq, Prod.mk.injEq] at h
       obtain ⟨h1, h2⟩ := h
       subst h1 h2
       first
         | exact absurd rfl he
         | exact ⟨rfl, _, _, by assumption, rfl⟩)

/-- C5. For a request the validator accepts and a response with status code outside 200..299
whose body is read, `GenerateImage` returns no result and an APIError carrying the status code,
the status text as message, and the raw body. -/
theorem GenerateImage_api_error (env : Env) (c : Client) (ctx : Context)
    (req : TextToImageRequest) (resp : HttpResponse)
    (hv : validated env req = .nil)
    (ht : (transport env c ctx req).out = .returned (some resp, .nil))
    (hb : resp.ReadErr = .nil)
    (hs : resp.StatusCode < 200 ∨ resp.StatusCode ≥ 300) :
    (GenerateImage env c ctx req).out =
      .returned (none, .apiError resp.StatusCode resp.Status resp.Body) := by
  obtain ⟨hc, hcl⟩ := PostJSON_nil_error_client _ _ _ _ _ _ ht
  unfold validated at hv
  unfold transport at ht
  rw [hcl] at ht
  simp [GenerateImage, hv, ht, hcl, DecodeJSONResponse, hb, hs, NewAPIError]

/-- After the validator has accepted the request, no error of `GenerateImage` is a
ValidationError. -/
theorem GenerateImage_accepted_not_validation (env : Env) (c : Client) (ctx : Context)
    (req : TextToImageRequest) (r : Option TextToImageResponse) (e : GoError)
    (hv : validated env req = .nil)
    (h : (GenerateImage env c ctx req).out = .returned (r, e)) :
    IsValidationError e = false := by
  unfold validated at hv
  simp only [GenerateImage, hv, ne_eq, not_true_eq_false, if_false] at h
  repeat' split at h
  all_goals first
    | (simp at h; done)
    | (simp at h; obtain ⟨_, h2⟩ := h; subst h2; rfl)

/-- A result returned by `GenerateImage` comes with a nil error and has at least one image. -/
theorem GenerateImage_result_nonempty (env : Env) (c : Client) (ctx : Context)
    (req : TextToImageRequest) (r : TextToImageResponse) (e : GoError)
    (h : (GenerateImage env c ctx req).out = .returned (some r, e)) :
    e = .nil ∧ r.Images ≠ [] := by
  simp only [GenerateImage] at h
  repeat' split at h
  all_goals first
    | (simp at h; done)
    | (rename_i hne
       simp only [Outcome.returned.injEq, Prod.mk.injEq, Option.some.injEq] at h
       obtain ⟨h1, h2⟩ := h
       subst h1
       exact ⟨h2.symm, fun hnil => hne (by simp [hnil])⟩)

/-- C1 as stated fails: for a request without a prompt the ValidationError returned by
`GenerateImage` has the empty string as `Field`, not "prompt". -/
theorem GenerateImage_empty_prompt_field_counterexample :
    noPromptRequest.Prompt = "" ∧
    (GenerateImage (stubEnv (none, .lib "connection refused") (⟨[]⟩, .nil)) localClient 0
        noPromptRequest).out =
      .returned (none, .validationError ""
        "validation error for field 'prompt': prompt is required and cannot be empty") ∧
    ¬ ∃ m : String,
      (GenerateImage (stubEnv (none, .lib "connection refused") (⟨[]⟩, .nil)) localClient 0
        noPromptRequest).out = .returned (none, .validationError "prompt" m) := by
  refine ⟨rfl, by decide, ?_⟩
  rintro ⟨m, hm⟩
  have h : (GenerateImage (stubEnv (none, .lib "connection refused") (⟨[]⟩, .nil)) localClient 0
      noPromptRequest).out = .returned (none, .validationError ""
        "validation error for field 'prompt': prompt is required and cannot be empty") := by
    decide
  rw [h] at hm
  simp at hm

/-- C1 (amended). For every request whose Prompt is the empty string, any values of the other
fields and any client, `GenerateImage` returns no result and a ValidationError whose `Field`
is empty and whose `Message` is the validator's text, which names the field prompt. -/
theorem GenerateImage_empty_prompt (env : Env) (c : Client) (ctx : Context)
    (req : TextToImageRequest) (hp : req.Prompt = "") :
    (GenerateImage env c ctx req).out =
      .returned (none, .validationError ""
        "validation error for field 'prompt': prompt is required and cannot be empty") := by
  have hP : (SetDefaults req).Prompt = "" := by rw [SetDefaults_Prompt, hp]
  have hval : validated env req = .errorString
      "validation error for field 'prompt': prompt is required and cannot be empty" := by
    simp [validated, ValidateTextToImageRequest, hP]
  rw [GenerateImage_rejected env c ctx req (by rw [hval]; simp), hval]
  rfl

/-- The request without a prompt, sent through a client whose HTTP client is a nil pointer. -/
theorem GenerateImage_empty_prompt_witness :
    (GenerateImage (stubEnv (none, .lib "connection refused") (⟨[]⟩, .nil))
        { localClient with httpClient := none } 0 noPromptRequest).out =
      .returned (none, .validationError ""
        "validation error for field 'prompt': prompt is required and cannot be empty") :=
  GenerateImage_empty_prompt _ _ 0 noPromptRequest rfl

/-- C4. Whenever `GenerateImage` returns a ValidationError, `PostJSON` was not invoked and no
HTTP request was issued during the call; and this is what happens for every request that the
validator rejects after defaulting. -/
theorem GenerateImage_validation_error_no_transport (env : Env) (c : Client) (ctx : Context)
    (req : TextToImageRequest) :
    (∀ r e, (GenerateImage env c ctx req).out = .returned (r, e) → IsValidationError e = true →
      postJSONCalls (GenerateImage env c ctx req).trace = 0 ∧
        httpRequestsIssued (GenerateImage env c ctx req).trace = 0) ∧
    (validated env req ≠ .nil →
      (∃ e, (GenerateImage env c ctx req).out = .returned (none, e) ∧
        IsValidationError e = true) ∧
      postJSONCalls (GenerateImage env c ctx req).trace = 0 ∧
        httpRequestsIssued (GenerateImage env c ctx req).trace = 0) := by
  constructor
  · intro r e h he
    by_cases hv : validated env req = .nil
    · rw [GenerateImage_accepted_not_validation env c ctx req r e hv h] at he
      exact absurd he (by decide)
    · rw [GenerateImage_rejected env c ctx req hv]
      exact ⟨rfl, rfl⟩
  · intro hv
    rw [GenerateImage_rejected env c ctx req hv]
    exact ⟨⟨_, rfl, rfl⟩, rfl, rfl⟩

/-- A request with a width of 32 is rejected without any transport activity. -/
theorem GenerateImage_validation_error_no_transport_witness :
    postJSONCalls (GenerateImage (stubEnv (none, .lib "connection refused") (⟨[]⟩, .nil))
        localClient 0 { catRequest with Width := 32 }).trace = 0 ∧
      httpRequestsIssued (GenerateImage (stubEnv (none, .lib "connection refused") (⟨[]⟩, .nil))
        localClient 0 { catRequest with Width := 32 }).trace = 0 :=
  ((GenerateImage_validation_error_no_transport
      (stubEnv (none, .lib "connection refused") (⟨[]⟩, .nil)) localClient 0
      { catRequest with Width := 32 }).2 (by decide)).2

/-- A status 500 with a body that is not JSON. -/
theorem GenerateImage_api_error_witness :
    (GenerateImage
        (stubEnv (some (response 500 "500 Internal Server Error" "internal server error"), .nil)
          (⟨[]⟩, .lib "invalid character 'i' looking for beginning of value"))
        localClient 0 catRequest).out =
      .returned (none,
        .apiError 500 "500 Internal Server Error" "internal server error") :=
  GenerateImage_api_error _ localClient 0 catRequest
    (response 500 "500 Internal Server Error" "internal server error")
    (by decide) (by decide) rfl (by decide)

/-- C6. For a request the validator accepts and a response with status in 200..299 whose body
decodes without error to a sequence of `n ≥ 1` images, `GenerateImage` returns a nil error and
a result whose `Images` is exactly that sequence. -/
theorem GenerateImage_success (env : Env) (c : Client) (ctx : Context)
    (req : TextToImageRequest) (resp : HttpResponse) (images : List String)
    (hv : validated env req = .nil)
    (ht : (transport env c ctx req).out = .returned (some resp, .nil))
    (hb : resp.ReadErr = .nil)
    (hs : 200 ≤ resp.StatusCode ∧ resp.StatusCode ≤ 299)
    (hu : env.unmarshal resp.Body = (⟨images⟩, .nil))
    (hn : 1 ≤ images.length) :
    (GenerateImage env c ctx req).out = .returned (some ⟨images⟩, .nil) := by
  obtain ⟨hc, hcl⟩ := PostJSON_nil_error_client _ _ _ _ _ _ ht
  unfold validated at hv
  unfold transport at ht
  rw [hcl] at ht
  have hs' : ¬ (resp.StatusCode < 200 ∨ resp.StatusCode ≥ 300) := by omega
  have hn' : images.length ≠ 0 := by omega
  simp [GenerateImage, hv, ht, hcl, DecodeJSONResponse, hb, hs', hu, hn']

/-- A status 200 with two images: both are returned, in order. -/
theorem GenerateImage_success_witness :
    (GenerateImage
        (stubEnv (some (response 200 "200 OK" "images: iVBORw0K, AAAA"), .nil)
          (⟨["iVBORw0K", "AAAA"]⟩, .nil))
        localClient 0 catRequest).out =
      .returned (some ⟨["iVBORw0K", "AAAA"]⟩, .nil) :=
  GenerateImage_success _ localClient 0 catRequest
    (response 200 "200 OK" "images: iVBORw0K, AAAA") ["iVBORw0K", "AAAA"]
    (by decide) (by decide) rfl (by decide) rfl (by decide)

/-- C7. For a request the validator accepts and a response with a 2xx status whose body
decodes without error but yields zero images, `GenerateImage` returns no result and a
DecodeError with message "no images in response"; and no call of `GenerateImage` returns a
result with an empty `Images` sequence. -/
theorem GenerateImage_no_images (env : Env) (c : Client) (ctx : Context)
    (req : TextToImageRequest) (resp : HttpResponse) (v : TextToImageResponse)
    (hv : validated env req = .nil)
    (ht : (transport env c ctx req).out = .returned (some resp, .nil))
    (hb : resp.ReadErr = .nil)
    (hs : 200 ≤ resp.StatusCode ∧ resp.StatusCode ≤ 299)
    (hu : env.unmarshal resp.Body = (v, .nil))
    (hz : v.Images.length = 0) :
    (GenerateImage env c ctx req).out =
        .returned (none, .decodeError "no images in response" .nil) ∧
      ∀ (env' : Env) (c' : Client) (ctx' : Context) (req' : TextToImageRequest)
        (r : TextToImageResponse) (e : GoError),
        (GenerateImage env' c' ctx' req').out = .returned (some r, e) → r.Images ≠ [] := by
  refine ⟨?_, fun env' c' ctx' req' r e h =>
    (GenerateImage_result_nonempty env' c' ctx' req' r e h).2⟩
  obtain ⟨hc, hcl⟩ := PostJSON_nil_error_client _ _ _ _ _ _ ht
  unfold validated at hv
  unfold transport at ht
  rw [hcl] at ht
  have hs' : ¬ (resp.StatusCode < 200 ∨ resp.StatusCode ≥ 300) := by omega
  have hz' : v.Images = [] := List.length_eq_zero.mp hz
  simp [GenerateImage, hv, ht, hcl, DecodeJSONResponse, hb, hs', hu, hz', NewDecodeError]

/-- A status 200 whose body decodes to no images. -/
theorem GenerateImage_no_images_witness :
    (GenerateImage (stubEnv (some (response 200 "200 OK" "images: none"), .nil) (⟨[]⟩, .nil))
        localClient 0 catRequest).out =
      .returned (none, .decodeError "no images in response" .nil) :=
  (GenerateImage_no_images _ localClient 0 catRequest (response 200 "200 OK" "images: none")
    ⟨[]⟩ (by decide) (by decide) rfl (by decide) rfl rfl).1

/-- C8. For a request the validator accepts, if the transport (`PostJSON`) fails with error
`e`, `GenerateImage` returns no result and a NetworkError whose `Unwrap()` is exactly `e`; and
`e` in turn wraps the non-nil library error that made the transport fail. -/
theorem GenerateImage_transport_failure (env : Env) (c : Client) (ctx : Context)
    (req : TextToImageRequest) (r : Option HttpResponse) (e : GoError)
    (hv : validated env req = .nil)
    (ht : (transport env c ctx req).out = .returned (r, e))
    (he : e ≠ .nil) :
    ∃ err, (GenerateImage env c ctx req).out = .returned (none, err) ∧
      IsNetworkError err = true ∧ err.Unwrap = e ∧ err.Unwrap.Unwrap ≠ .nil := by
  refine ⟨NewNetworkError "API request failed" e, ?_, rfl, rfl, ?_⟩
  · unfold validated at hv
    unfold transport at ht
    simp [GenerateImage, hv, ht, he]
  · obtain ⟨_, text, cause, hc, rfl⟩ := PostJSON_error_wraps_cause _ _ _ _ _ _ _ ht he
    exact hc

/-- A refused connection: the error of `PostJSON` is what `Unwrap()` gives back. -/
theorem GenerateImage_transport_failure_witness :
    ∃ err, (GenerateImage (stubEnv (none, .lib "connection refused") (⟨[]⟩, .nil)) localClient 0
        catRequest).out = .returned (none, err) ∧
      IsNetworkError err = true ∧
      err.Unwrap = .wrapError "request failed: connection refused" (.lib "connection refused") ∧
      err.Unwrap.Unwrap ≠ .nil :=
  GenerateImage_transport_failure _ localClient 0 catRequest none
    (.wrapError "request failed: connection refused" (.lib "connection refused"))
    (by decide) (by decide) (by decide)

/-- C9. For a request the validator accepts and a response with a 2xx status whose body fails
to decode with parse error `pe`, `GenerateImage` returns a NetworkError with message "failed to
decode response" that wraps the decoder's error (which wraps `pe`); it is not a DecodeError,
ValidationError or APIError. -/
theorem GenerateImage_unparsable_body (env : Env) (c : Client) (ctx : Context)
    (req : TextToImageRequest) (resp : HttpResponse) (v : TextToImageResponse) (pe : GoError)
    (hv : validated env req = .nil)
    (ht : (transport env c ctx req).out = .returned (some resp, .nil))
    (hb : resp.ReadErr = .nil)
    (hs : 200 ≤ resp.StatusCode ∧ resp.StatusCode ≤ 299)
    (hu : env.unmarshal resp.Body = (v, pe))
    (hpe : pe ≠ .nil) :
    ∃ err, (GenerateImage env c ctx req).out = .returned (none, err) ∧
      err = .networkError "failed to decode response"
        (errorfW "failed to unmarshal response: " pe) ∧
      err.Unwrap.Unwrap = pe ∧
      IsNetworkError err = true ∧ IsDecodeError err = false ∧
      IsValidationError err = false ∧ IsAPIError err = false := by
  refine ⟨_, ?_, rfl, rfl, rfl, rfl, rfl, rfl⟩
  obtain ⟨hc, hcl⟩ := PostJSON_nil_error_client _ _ _ _ _ _ ht
  unfold validated at hv
  unfold transport at ht
  rw [hcl] at ht
  have hs' : ¬ (resp.StatusCode < 200 ∨ resp.StatusCode ≥ 300) := by omega
  simp [GenerateImage, hv, ht, hcl, DecodeJSONResponse, hb, hs', hu, hpe, errorfW,
    NewNetworkError]

/-- A status 200 whose body is not JSON. -/
theorem GenerateImage_unparsable_body_witness :
    ∃ err, (GenerateImage
        (stubEnv (some (response 200 "200 OK" "<html>"), .nil)
          (⟨[]⟩, .lib "invalid character '<' looking for beginning of value"))
        localClient 0 catRequest).out = .returned (none, err) ∧
      err = .networkError "failed to decode response"
        (errorfW "failed to unmarshal response: "
          (.lib "invalid character '<' looking for beginning of value")) ∧
      err.Unwrap.Unwrap = .lib "invalid character '<' looking for beginning of value" ∧
      IsNetworkError err = true ∧ IsDecodeError err = false ∧
      IsValidationError err = false ∧ IsAPIError err = false :=
  GenerateImage_unparsable_body _ localClient 0 catRequest (response 200 "200 OK" "<html>") ⟨[]⟩
    (.lib "invalid character '<' looking for beginning of value")
    (by decide) (by decide) rfl (by decide) rfl (by decide)

/-! ## Defaulting, continued -/

/-- After `SetDefaults` none of the five optional fields is zero. -/
theorem SetDefaults_nonzero (r : TextToImageRequest) :
    (SetDefaults r).Steps ≠ 0 ∧ GoFloat.eq (SetDefaults r).GuidanceScale (.fin 0) = false ∧
    (SetDefaults r).Width ≠ 0 ∧ (SetDefaults r).Height ≠ 0 ∧ (SetDefaults r).Seed ≠ 0 := by
  have hz : ∀ g : GoFloat, g ≠ .fin 0 → GoFloat.eq g (.fin 0) = false := by
    intro g hg
    cases h : GoFloat.eq g (.fin 0)
    · rfl
    · exact absurd ((GoFloat.eq_zero_iff g).mp h) hg
  unfold SetDefaults
  by_cases h1 : r.Steps = 0 <;> by_cases h2 : r.GuidanceScale = .fin 0 <;>
    by_cases h3 : r.Width = 0 <;> by_cases h4 : r.Height = 0 <;>
    by_cases h5 : r.Seed = 0 <;>
    simp [h1, h2, h3, h4, h5, GoFloat.eq_zero_iff, hz]

/-- A request none of whose five optional fields is zero is left as it is by `SetDefaults`. -/
theorem SetDefaults_of_nonzero (r : TextToImageRequest) (h1 : r.Steps ≠ 0)
    (h2 : GoFloat.eq r.GuidanceScale (.fin 0) = false) (h3 : r.Width ≠ 0) (h4 : r.Height ≠ 0)
    (h5 : r.Seed ≠ 0) : SetDefaults r = r := by
  simp [SetDefaults, h1, h2, h3, h4, h5]

/-- Applying `SetDefaults` a second time changes nothing. -/
theorem SetDefaults_twice (r : TextToImageRequest) :
    SetDefaults (SetDefaults r) = SetDefaults r := by
  obtain ⟨h1, h2, h3, h4, h5⟩ := SetDefaults_nonzero r
  exact SetDefaults_of_nonzero _ h1 h2 h3 h4 h5

/-- C11. `SetDefaults` is idempotent: for every request, applying it twice yields a request
equal, field by field, to the one obtained by applying it once. -/
theorem SetDefaults_idempotent (r : TextToImageRequest) :
    SetDefaults (SetDefaults r) = SetDefaults r ∧
    (SetDefaults (SetDefaults r)).Prompt = (SetDefaults r).Prompt ∧
    (SetDefaults (SetDefaults r)).NegativePrompt = (SetDefaults r).NegativePrompt ∧
    (SetDefaults (SetDefaults r)).Steps = (SetDefaults r).Steps ∧
    (SetDefaults (SetDefaults r)).GuidanceScale = (SetDefaults r).GuidanceScale ∧
    (SetDefaults (SetDefaults r)).Width = (SetDefaults r).Width ∧
    (SetDefaults (SetDefaults r)).Height = (SetDefaults r).Height ∧
    (SetDefaults (SetDefaults r)).Seed = (SetDefaults r).Seed := by
  have h := SetDefaults_twice r
  refine ⟨h, ?_, ?_, ?_, ?_, ?_, ?_, ?_⟩ <;> rw [h]

/-! ## The error taxonomy -/

/-- C12. Each of `IsValidationError`, `IsNetworkError`, `IsAPIError` and `IsDecodeError` is
false on the nil error, true on an error of its own kind built by the matching constructor and
false on an error of each of the other three kinds; and for every error value at most one of
the four is true. -/
theorem classification_predicates (resp : HttpResponse) (body field message : String)
    (cause : GoError) :
    (IsValidationError .nil = false ∧ IsNetworkError .nil = false ∧
      IsAPIError .nil = false ∧ IsDecodeError .nil = false) ∧
    (IsValidationError (NewValidationError field message) = true ∧
      IsNetworkError (NewValidationError field message) = false ∧
      IsAPIError (NewValidationError field message) = false ∧
      IsDecodeError (NewValidationError field message) = false) ∧
    (IsNetworkError (NewNetworkError message cause) = true ∧
      IsValidationError (NewNetworkError message cause) = false ∧
      IsAPIError (NewNetworkError message cause) = false ∧
      IsDecodeError (NewNetworkError message cause) = false) ∧
    (IsAPIError (NewAPIError resp body) = true ∧
      IsValidationError (NewAPIError resp body) = false ∧
      IsNetworkError (NewAPIError resp body) = false ∧
      IsDecodeError (NewAPIError resp body) = false) ∧
    (IsDecodeError (NewDecodeError message cause) = true ∧
      IsValidationError (NewDecodeError message cause) = false ∧
      IsNetworkError (NewDecodeError message cause) = false ∧
      IsAPIError (NewDecodeError message cause) = false) ∧
    (∀ e : GoError, kindCount e ≤ 1) := by
  refine ⟨⟨rfl, rfl, rfl, rfl⟩, ⟨rfl, rfl, rfl, rfl⟩, ⟨rfl, rfl, rfl, rfl⟩, ⟨rfl, rfl, rfl, rfl⟩,
    ⟨rfl, rfl, rfl, rfl⟩, ?_⟩
  intro e
  cases e <;> simp [kindCount, IsValidationError, IsNetworkError, IsAPIError, IsDecodeError]

/-! ## Client construction -/

/-- The options of a list applied in order to a client. -/
theorem foldl_options_append (calls : List OptionCall) (o : OptionCall) (c : Client) :
    ((calls ++ [o]).map OptionCall.toOption).foldl (fun c opt => opt c) c =
      o.toOption ((calls.map OptionCall.toOption).foldl (fun c opt => opt c) c) := by
  simp [List.foldl_append]

/-- What the options of a list leave in the fields of a client that had no HTTP client yet:
last-applied wins for base URL and timeout, and the HTTP client is the one built by the last
`WithTimeout` or `WithLogger`. -/
theorem foldl_options_fields (calls : List OptionCall) (c0 : Client)
    (h0 : c0.httpClient = none) :
    let c := (calls.map OptionCall.toOption).foldl (fun c opt => opt c) c0
    c.baseURL = (lastBaseURL calls).getD c0.baseURL ∧
    c.timeout = (lastTimeout calls).getD c0.timeout ∧
    c.httpClient =
      ((calls.filter (fun o => match o with | .withBaseURL _ => false | _ => true)).getLast?).map
        (fun o => match o with
          | .withLogger _ =>
            { timeout := if c.timeout = 0 then DefaultTimeout else c.timeout, logger := c.logger }
          | _ => { timeout := c.timeout, logger := c.logger }) := by
  induction calls using List.reverseRecOn with
  | nil => simp [lastBaseURL, lastTimeout, h0]
  | append_singleton calls o ih =>
    simp only [foldl_options_append]
    obtain ⟨ih1, ih2, ih3⟩ := ih
    cases o with
    | withBaseURL u =>
      simp only [OptionCall.toOption, WithBaseURL]
      refine ⟨?_, ?_, ?_⟩
      · simp [lastBaseURL]
      · simpa [lastTimeout] using ih2
      · simpa using ih3
    | withTimeout t =>
      simp only [OptionCall.toOption, WithTimeout, HttpClient.NewClient]
      refine ⟨?_, ?_, ?_⟩
      · simpa [lastBaseURL] using ih1
      · simp [lastTimeout]
      · simp
    | withLogger l =>
      simp only [OptionCall.toOption, WithLogger, HttpClient.NewClient]
      refine ⟨?_, ?_, ?_⟩
      · simpa [lastBaseURL] using ih1
      · simpa [lastTimeout] using ih2
      · simp

/-- C17. `NewClient` with no options yields the default base URL and the default timeout of
five minutes; for every list of options the base URL is the argument of the last `WithBaseURL`
(the default if there is none) and the timeout is the argument of the last `WithTimeout` (the
default if there is none). -/
theorem NewClient_last_option_wins (calls : List OptionCall) :
    ((NewClient []).baseURL = "http://127.0.0.1:7860" ∧
      (NewClient []).timeout = 300000000000) ∧
    (NewClient (calls.map OptionCall.toOption)).baseURL =
      (lastBaseURL calls).getD DefaultBaseURL ∧
    (NewClient (calls.map OptionCall.toOption)).timeout =
      (lastTimeout calls).getD DefaultTimeout := by
  refine ⟨⟨by decide, by decide⟩, ?_⟩
  obtain ⟨h1, h2, -⟩ := foldl_options_fields calls
    { baseURL := DefaultBaseURL, httpClient := none, timeout := DefaultTimeout, logger := none }
    rfl
  simp only at h1 h2
  unfold NewClient
  simp only
  split_ifs
  · exact ⟨h1, h2⟩
  · exact ⟨h1, h2⟩

/-- C18 as stated fails: after `WithTimeout(0)` followed by `WithLogger`, the client records the
timeout 0 while its HTTP client is built with the default timeout; in the other order the HTTP
client is built with the timeout 0. -/
theorem NewClient_httpClient_timeout_counterexample :
    (NewClient [WithTimeout 0, WithLogger (some ⟨1⟩)]).timeout = 0 ∧
    (NewClient [WithTimeout 0, WithLogger (some ⟨1⟩)]).httpClient =
      some { timeout := 300000000000, logger := some ⟨1⟩ } ∧
    (NewClient [WithLogger (some ⟨1⟩), WithTimeout 0]).httpClient =
      some { timeout := 0, logger := some ⟨1⟩ } ∧
    ¬ ∀ calls : List OptionCall,
      (NewClient (calls.map OptionCall.toOption)).httpClient =
        some { timeout := (NewClient (calls.map OptionCall.toOption)).timeout,
               logger := (NewClient (calls.map OptionCall.toOption)).logger } := by
  refine ⟨by decide, by decide, by decide, ?_⟩
  intro h
  exact absurd (h [.withTimeout 0, .withLogger (some ⟨1⟩)]) (by decide)

/-- C18 (amended). For every list of options passed to `NewClient`, the HTTP client of the
returned client is built with the client's own logger, and with the client's own timeout except
in one case: when that timeout is 0 and the last `WithTimeout` or `WithLogger` applied is a
`WithLogger`, the HTTP client is built with the default timeout. -/
theorem NewClient_httpClient (calls : List OptionCall) :
    (NewClient (calls.map OptionCall.toOption)).httpClient =
      some
        { timeout :=
            if (NewClient (calls.map OptionCall.toOption)).timeout = 0 ∧
                endsWithLogger calls = true then DefaultTimeout
            else (NewClient (calls.map OptionCall.toOption)).timeout
          logger := (NewClient (calls.map OptionCall.toOption)).logger } := by
  obtain ⟨-, -, h3⟩ := foldl_options_fields calls
    { baseURL := DefaultBaseURL, httpClient := none, timeout := DefaultTimeout, logger := none }
    rfl
  unfold NewClient endsWithLogger
  generalize (calls.filter (fun o => match o with | .withBaseURL _ => false | _ => true)).getLast?
    = last at h3 ⊢
  generalize (calls.map OptionCall.toOption).foldl (fun c opt => opt c)
    { baseURL := DefaultBaseURL, httpClient := none, timeout := DefaultTimeout, logger := none }
    = c at h3 ⊢
  cases last with
  | none => simp [h3, HttpClient.NewClient]
  | some o => cases o <;> simp [h3]

/-! ## The save path -/

/-- The request after `GenerateImage` is the defaulted request, however the call ends. -/
theorem GenerateImage_req (env : Env) (c : Client) (ctx : Context) (req : TextToImageRequest) :
    (GenerateImage env c ctx req).req = SetDefaults req := by
  simp only [GenerateImage]
  repeat' split
  all_goals rfl

/-- The run of `GenerateImage` depends on the request only through the defaulted request. -/
theorem GenerateImage_congr (env : Env) (c : Client) (ctx : Context)
    (req req' : TextToImageRequest) (h : SetDefaults req = SetDefaults req') :
    GenerateImage env c ctx req = GenerateImage env c ctx req' := by
  simp only [GenerateImage, h]

/-- No filesystem operation is performed by `PostJSON`. -/
theorem PostJSON_no_fs (env : Env) (c : Option HttpClient) (ctx : Context) (url : String)
    (body : Option TextToImageRequest) : fsOperations (PostJSON env c ctx url body).trace = 0 := by
  simp only [PostJSON, PostJSON.send]
  repeat' split
  all_goals simp [fsOperations, logIf, List.countP_cons, List.countP_append]
  all_goals (try split) <;> simp

/-- No filesystem operation is performed by `DecodeJSONResponse`. -/
theorem DecodeJSONResponse_no_fs (env : Env) (c : Option HttpClient)
    (resp : Option HttpResponse) : fsOperations (DecodeJSONResponse env c resp).trace = 0 := by
  simp only [DecodeJSONResponse]
  repeat' split
  all_goals simp [fsOperations, logIf, List.countP_cons, List.countP_append]
  all_goals (try split) <;> simp

/-- No filesystem operation is performed by `GenerateImage`. -/
theorem GenerateImage_no_fs (env : Env) (c : Client) (ctx : Context)
    (req : TextToImageRequest) : fsOperations (GenerateImage env c ctx req).trace = 0 := by
  have hp := PostJSON_no_fs env c.httpClient ctx (c.baseURL ++ "/sdapi/v1/txt2img")
    (some (SetDefaults req))
  have hd := fun resp => DecodeJSONResponse_no_fs env c.httpClient resp
  have happ : ∀ t u : List Event, fsOperations (t ++ u) = fsOperations t + fsOperations u := by
    intro t u; simp [fsOperations, List.countP_append]
  simp only [GenerateImage]
  repeat' split
  all_goals first
    | rfl
    | exact hp
    | (rw [happ, hp, hd])

/-- A non-nil error returned by `GenerateImage` comes without a result and satisfies exactly one
of the four classification predicates. -/
theorem GenerateImage_error_kind (env : Env) (c : Client) (ctx : Context)
    (req : TextToImageRequest) (r : Option TextToImageResponse) (e : GoError)
    (h : (GenerateImage env c ctx req).out = .returned (r, e)) (he : e ≠ .nil) :
    r = none ∧ kindCount e = 1 := by
  simp only [GenerateImage] at h
  repeat' split at h
  all_goals first
    | (simp at h; done)
    | (simp only [Outcome.returned.injEq, Prod.mk.injEq] at h
       obtain ⟨h1, h2⟩ := h
       subst h1 h2
       first
         | exact ⟨rfl, rfl⟩
         | exact absurd rfl he)

/-- A nil error returned by `GenerateImage` comes with a result that has a first image. -/
theorem GenerateImage_nil_error_result (env : Env) (c : Client) (ctx : Context)
    (req : TextToImageRequest) (r : Option TextToImageResponse)
    (h : (GenerateImage env c ctx req).out = .returned (r, .nil)) :
    ∃ first rest, r = some ⟨first :: rest⟩ := by
  cases r with
  | none =>
    exfalso
    simp only [GenerateImage] at h
    repeat' split at h
    all_goals simp [NewValidationError, NewNetworkError, NewAPIError, NewDecodeError] at h
  | some v =>
    obtain ⟨_, hne⟩ := GenerateImage_result_nonempty env c ctx req v .nil h
    obtain ⟨images⟩ := v
    cases images with
    | nil => exact absurd rfl hne
    | cons first rest => exact ⟨first, rest, rfl⟩

/-- The result of `GenerateImage` for a request the validator accepts, when the transport
returns a response with a 2xx status whose body is read and decodes to at least one image. -/
theorem GenerateImage_of_images (env : Env) (c : Client) (ctx : Context)
    (req : TextToImageRequest) (resp : HttpResponse) (images : List String)
    (hv : validated env req = .nil)
    (ht : (transport env c ctx req).out = .returned (some resp, .nil))
    (hb : resp.ReadErr = .nil)
    (hs : 200 ≤ resp.StatusCode ∧ resp.StatusCode ≤ 299)
    (hu : env.unmarshal resp.Body = (⟨images⟩, .nil))
    (hn : images ≠ []) :
    (GenerateImage env c ctx req).out = .returned (some ⟨images⟩, .nil) := by
  obtain ⟨hc, hcl⟩ := PostJSON_nil_error_client _ _ _ _ _ _ ht
  unfold validated at hv
  unfold transport at ht
  rw [hcl] at ht
  have hs' : ¬ (resp.StatusCode < 200 ∨ resp.StatusCode ≥ 300) := by omega
  simp [GenerateImage, hv, ht, hcl, DecodeJSONResponse, hb, hs', hu, hn]

/-- C13. Every non-nil error returned by `GenerateImage` satisfies exactly one of the four
classification predicates; every non-nil error returned by `GenerateImageAndSave` is the
unchanged error of `GenerateImage` or a DecodeError (exactly one predicate holds), or it is the
wrapped error of the directory creation or of the file write, of which all four predicates are
false. -/
theorem errors_classified (env : Env) (host : Host) (c : Client) (ctx : Context)
    (req : TextToImageRequest) (outputPath : String) :
    (∀ r e, (GenerateImage env c ctx req).out = .returned (r, e) → e ≠ .nil →
      kindCount e = 1) ∧
    (∀ e, (GenerateImageAndSave env host c ctx req outputPath).out = .returned e → e ≠ .nil →
      ((∃ r, (GenerateImage env c ctx req).out = .returned (r, e)) ∧ kindCount e = 1) ∨
      (IsDecodeError e = true ∧ kindCount e = 1) ∨
      ((∃ cause, cause ≠ .nil ∧
          (e = errorfW "failed to create output directory: " cause ∨
            e = errorfW "failed to write image file: " cause)) ∧
        IsValidationError e = false ∧ IsNetworkError e = false ∧ IsAPIError e = false ∧
        IsDecodeError e = false)) := by
  refine ⟨fun r e h he => (GenerateImage_error_kind env c ctx req r e h he).2, ?_⟩
  intro e h he
  simp only [GenerateImageAndSave, GenerateImageAndSave.write] at h
  repeat' split at h
  all_goals first
    | (simp at h; done)
    | (simp only [Outcome.returned.injEq] at h
       subst h
       first
         | exact absurd rfl he
         | exact Or.inl ⟨⟨_, by assumption⟩,
             (GenerateImage_error_kind env c ctx req _ _ (by assumption) (by assumption)).2⟩
         | exact Or.inr (Or.inl ⟨rfl, rfl⟩)
         | exact Or.inr (Or.inr ⟨⟨_, by assumption, Or.inl rfl⟩, rfl, rfl, rfl, rfl⟩)
         | exact Or.inr (Or.inr ⟨⟨_, by assumption, Or.inr rfl⟩, rfl, rfl, rfl, rfl⟩))

/-- A refused connection gives a NetworkError, of which exactly one predicate holds. -/
theorem errors_classified_witness :
    kindCount (.networkError "API request failed"
      (.wrapError "request failed: connection refused" (.lib "connection refused"))) = 1 :=
  (errors_classified (stubEnv (none, .lib "connection refused") (⟨[]⟩, .nil)) stubHost
    localClient 0 catRequest "out/cat.png").1 none _ (by decide) (by decide)

/-- C16. Whenever `GenerateImageAndSave` returns an error of one of the four domain kinds, no
filesystem operation was performed during the call: neither a directory creation nor a file
write. -/
theorem GenerateImageAndSave_domain_error_no_fs (env : Env) (host : Host) (c : Client)
    (ctx : Context) (req : TextToImageRequest) (outputPath : String) (e : GoError)
    (h : (GenerateImageAndSave env host c ctx req outputPath).out = .returned e)
    (hk : IsValidationError e = true ∨ IsNetworkError e = true ∨ IsAPIError e = true ∨
      IsDecodeError e = true) :
    fsOperations (GenerateImageAndSave env host c ctx req outputPath).trace = 0 := by
  have hfs := GenerateImage_no_fs env c ctx req
  revert h
  simp only [GenerateImageAndSave, GenerateImageAndSave.write]
  repeat' split
  all_goals intro h
  all_goals first
    | exact hfs
    | (simp at h; done)
    | (simp only [Outcome.returned.injEq] at h
       subst h
       simp [errorfW, IsValidationError, IsNetworkError, IsAPIError, IsDecodeError] at hk)

/-- A first image that is not base64: the DecodeError comes before any filesystem operation. -/
theorem GenerateImageAndSave_domain_error_no_fs_witness :
    fsOperations (GenerateImageAndSave
      (stubEnv (some (response 200 "200 OK" "images: @@@"), .nil) (⟨["@@@"]⟩, .nil)) stubHost
      localClient 0 catRequest "out/cat.png").trace = 0 :=
  GenerateImageAndSave_domain_error_no_fs _ stubHost localClient 0 catRequest "out/cat.png"
    (.decodeError "failed to decode base64 image data"
      (.lib "illegal base64 data at input byte 0"))
    (by decide) (by decide)

/-- The file writes of two traces, one after the other. -/
theorem filesWritten_append (t u : List Event) :
    filesWritten (t ++ u) = filesWritten t ++ filesWritten u := by
  simp [filesWritten]

/-- A trace without filesystem operations has no file writes. -/
theorem filesWritten_of_no_fs (t : List Event) (h : fsOperations t = 0) :
    filesWritten t = [] := by
  induction t with
  | nil => rfl
  | cons ev t ih =>
    have h0 : ∀ ev' ∈ ev :: t,
        ¬ (match ev' with | .mkdirAll _ _ => true | .writeFile _ _ _ => true | _ => false)
          = true := by
      simpa [fsOperations, List.countP_eq_zero] using h
    have ht : fsOperations t = 0 := by
      simp only [fsOperations, List.countP_eq_zero]
      intro ev' hev'
      exact h0 ev' (List.mem_cons_of_mem _ hev')
    have hev := h0 ev (List.mem_cons_self _ _)
    cases ev <;> simp_all [filesWritten]

/-- C15. For every successful result of `GenerateImage` whose first image string fails to decode
as standard base64, `GenerateImageAndSave` returns a DecodeError with message "failed to decode
base64 image data" that wraps the base64 error, whatever the remaining images are. -/
theorem GenerateImageAndSave_bad_base64 (env : Env) (host : Host) (c : Client)
    (ctx : Context) (req : TextToImageRequest) (outputPath : String) (first : String)
    (rest : List String) (data : List UInt8) (cause : GoError)
    (hg : (GenerateImage env c ctx req).out = .returned (some ⟨first :: rest⟩, .nil))
    (hd : host.base64Decode first = (data, cause))
    (hc : cause ≠ .nil) :
    ∃ err, (GenerateImageAndSave env host c ctx req outputPath).out = .returned err ∧
      err = .decodeError "failed to decode base64 image data" cause ∧
      IsDecodeError err = true ∧ err.Unwrap = cause := by
  refine ⟨_, ?_, rfl, rfl, rfl⟩
  simp [GenerateImageAndSave, hg, hd, hc, NewDecodeError]

/-- Two images, the first of which is not base64. -/
theorem GenerateImageAndSave_bad_base64_witness :
    ∃ err, (GenerateImageAndSave
        (stubEnv (some (response 200 "200 OK" "images: @@@, iVBORw0KGgo="), .nil)
          (⟨["@@@", "iVBORw0KGgo="]⟩, .nil))
        stubHost localClient 0 catRequest "out/cat.png").out = .returned err ∧
      err = .decodeError "failed to decode base64 image data"
        (.lib "illegal base64 data at input byte 0") ∧
      IsDecodeError err = true ∧ err.Unwrap = .lib "illegal base64 data at input byte 0" :=
  GenerateImageAndSave_bad_base64 _ stubHost localClient 0 catRequest "out/cat.png" "@@@"
    ["iVBORw0KGgo="] [] (.lib "illegal base64 data at input byte 0") (by decide) (by decide)
    (by decide)

/-- C14. Round trip of the save path: when the server answers a request the validator accepts
with a 2xx response whose images are a first image that decodes to the bytes `b`, followed by
any further images `rest`, and directory creation and file writing succeed, then
`GenerateImageAndSave` returns nil and what it writes is exactly one file: `b` at the output
path. -/
theorem GenerateImageAndSave_round_trip (env : Env) (host : Host) (c : Client)
    (ctx : Context) (req : TextToImageRequest) (outputPath : String) (resp : HttpResponse)
    (first : String) (rest : List String) (b : List UInt8)
    (hv : validated env req = .nil)
    (ht : (transport env c ctx req).out = .returned (some resp, .nil))
    (hb : resp.ReadErr = .nil)
    (hs : 200 ≤ resp.StatusCode ∧ resp.StatusCode ≤ 299)
    (hu : env.unmarshal resp.Body = (⟨first :: rest⟩, .nil))
    (hd : host.base64Decode first = (b, .nil))
    (hm : host.mkdirAll (host.filepathDir outputPath) 0o755 = .nil)
    (hw : host.writeFile outputPath b 0o644 = .nil) :
    (GenerateImageAndSave env host c ctx req outputPath).out = .returned .nil ∧
      filesWritten (GenerateImageAndSave env host c ctx req outputPath).trace =
        [(outputPath, b)] := by
  have hg := GenerateImage_of_images env c ctx req resp (first :: rest) hv ht hb hs hu (by simp)
  have hfw := filesWritten_of_no_fs _ (GenerateImage_no_fs env c ctx req)
  simp only [GenerateImageAndSave, GenerateImageAndSave.write, hg, hd, hm, hw, ne_eq,
    not_true_eq_false, if_false, List.length_cons, Nat.succ_ne_zero]
  split_ifs
  · refine ⟨rfl, ?_⟩
    rw [List.append_assoc, filesWritten_append, hfw]
    rfl
  · refine ⟨rfl, ?_⟩
    rw [filesWritten_append, hfw]
    rfl

/-- The PNG signature, served base64-encoded and followed by a second image, ends up in the
file byte for byte. -/
theorem GenerateImageAndSave_round_trip_witness :
    (GenerateImageAndSave
        (stubEnv (some (response 200 "200 OK" "images: iVBORw0KGgo=, AAAA"), .nil)
          (⟨["iVBORw0KGgo=", "AAAA"]⟩, .nil))
        stubHost localClient 0 catRequest "out/cat.png").out = .returned .nil ∧
      filesWritten (GenerateImageAndSave
        (stubEnv (some (response 200 "200 OK" "images: iVBORw0KGgo=, AAAA"), .nil)
          (⟨["iVBORw0KGgo=", "AAAA"]⟩, .nil))
        stubHost localClient 0 catRequest "out/cat.png").trace =
        [("out/cat.png", [137, 80, 78, 71, 13, 10, 26, 10])] :=
  GenerateImageAndSave_round_trip _ stubHost localClient 0 catRequest "out/cat.png"
    (response 200 "200 OK" "images: iVBORw0KGgo=, AAAA") "iVBORw0KGgo=" ["AAAA"]
    [137, 80, 78, 71, 13, 10, 26, 10]
    (by decide) (by decide) rfl (by decide) rfl (by decide) rfl rfl

/-- C20. Index safety of the save path: whenever `GenerateImage` returns a nil error its result
is non-nil and has a first image, so `resp.Images[0]` in `GenerateImageAndSave` is in range:
`GenerateImageAndSave` never panics unless `GenerateImage` does, and an error "no images in
response" returned by it is always the one `GenerateImage` returned, never one produced by the
second check. -/
theorem GenerateImage_index_safety (env : Env) (host : Host) (c : Client) (ctx : Context)
    (req : TextToImageRequest) (outputPath : String) :
    (∀ r, (GenerateImage env c ctx req).out = .returned (r, .nil) →
      ∃ first rest, r = some ⟨first :: rest⟩) ∧
    ((GenerateImageAndSave env host c ctx req outputPath).out = .panicked →
      (GenerateImage env c ctx req).out = .panicked) ∧
    ((GenerateImageAndSave env host c ctx req outputPath).out =
        .returned (NewDecodeError "no images in response" .nil) →
      ∃ r, (GenerateImage env c ctx req).out =
        .returned (r, NewDecodeError "no images in response" .nil)) := by
  refine ⟨fun r h => GenerateImage_nil_error_result env c ctx req r h, ?_, ?_⟩
  · intro h
    cases hgen : (GenerateImage env c ctx req).out with
    | panicked => rfl
    | returned p =>
      exfalso
      obtain ⟨r, e⟩ := p
      by_cases he : e = .nil
      · subst he
        obtain ⟨first, rest, rfl⟩ := GenerateImage_nil_error_result env c ctx req r hgen
        simp only [GenerateImageAndSave, GenerateImageAndSave.write, hgen] at h
        repeat' split at h
        all_goals simp at h
      · simp [GenerateImageAndSave, hgen, he] at h
  · intro h
    cases hgen : (GenerateImage env c ctx req).out with
    | panicked => simp [GenerateImageAndSave, hgen] at h
    | returned p =>
      obtain ⟨r, e⟩ := p
      by_cases he : e = .nil
      · exfalso
        subst he
        obtain ⟨first, rest, rfl⟩ := GenerateImage_nil_error_result env c ctx req r hgen
        simp only [GenerateImageAndSave, GenerateImageAndSave.write, hgen] at h
        repeat' split at h
        all_goals first
          | (simp [NewDecodeError, errorfW] at h; done)
          | (rename_i hlen; simp at hlen)
      · simp only [GenerateImageAndSave, hgen] at h
        simp [he] at h
        exact ⟨r, by rw [h]⟩

/-- A successful call: the result has a first image. -/
theorem GenerateImage_index_safety_witness :
    ∃ first rest, some (TextToImageResponse.mk ["iVBORw0KGgo=", "AAAA"]) =
      some ⟨first :: rest⟩ :=
  (GenerateImage_index_safety
    (stubEnv (some (response 200 "200 OK" "images: iVBORw0KGgo=, AAAA"), .nil)
      (⟨["iVBORw0KGgo=", "AAAA"]⟩, .nil))
    stubHost localClient 0 catRequest "out/cat.png").1 _ (by decide)

/-! ## What is validated and sent -/

/-- A log line is not an HTTP request. -/
theorem httpDo_not_mem_logIf (logger : Option Logger) (line : String) (timeout : Duration)
    (hreq : HttpRequest) : Event.httpDo timeout hreq ∉ logIf logger line := by
  cases logger <;> simp [logIf]

/-- The body of an HTTP request issued by `PostJSON` is the serialisation of the body passed
to it. -/
theorem PostJSON_http_body (env : Env) (c : Option HttpClient) (ctx : Context) (url : String)
    (b : TextToImageRequest) (timeout : Duration) (hreq : HttpRequest)
    (h : Event.httpDo timeout hreq ∈ (PostJSON env c ctx url (some b)).trace) :
    hreq.body = some (env.marshal b).1 := by
  cases hm : env.marshal b with
  | mk jsonData err =>
    simp only [PostJSON, PostJSON.send, hm] at h
    repeat' split at h
    all_goals simp [httpDo_not_mem_logIf] at h
    all_goals
      obtain ⟨_, rfl⟩ := h
      rfl

/-- The decoder issues no HTTP request. -/
theorem DecodeJSONResponse_no_http (env : Env) (c : Option HttpClient)
    (resp : Option HttpResponse) (timeout : Duration) (hreq : HttpRequest) :
    Event.httpDo timeout hreq ∉ (DecodeJSONResponse env c resp).trace := by
  simp only [DecodeJSONResponse]
  repeat' split
  all_goals simp [httpDo_not_mem_logIf]

/-- The body of every HTTP request issued by `GenerateImage` is the serialisation of the
defaulted request. -/
theorem GenerateImage_http_body (env : Env) (c : Client) (ctx : Context)
    (req : TextToImageRequest) (timeout : Duration) (hreq : HttpRequest)
    (h : Event.httpDo timeout hreq ∈ (GenerateImage env c ctx req).trace) :
    hreq.body = some (env.marshal (SetDefaults req)).1 := by
  have hp := PostJSON_http_body env c.httpClient ctx (c.baseURL ++ "/sdapi/v1/txt2img")
    (SetDefaults req) timeout hreq
  have hd := fun resp => DecodeJSONResponse_no_http env c.httpClient resp timeout hreq
  simp only [GenerateImage] at h
  repeat' split at h
  all_goals first
    | exact hp h
    | (simp at h; done)
    | (rcases List.mem_append.mp h with h' | h'
       · exact hp h'
       · exact absurd h' (hd _))

/-- The defaults are inside the validator's ranges: a field that was zero passes its check
after `SetDefaults`. -/
theorem SetDefaults_zero_passes (r : TextToImageRequest) :
    (r.Steps = 0 → (SetDefaults r).Steps = 20) ∧
    (r.GuidanceScale = .fin 0 → (SetDefaults r).GuidanceScale = .fin 4) ∧
    (r.Width = 0 → (SetDefaults r).Width = 512) ∧
    (r.Height = 0 → (SetDefaults r).Height = 512) ∧
    (r.Seed = 0 → (SetDefaults r).Seed = -1) := by
  unfold SetDefaults
  by_cases h1 : r.Steps = 0 <;> by_cases h2 : r.GuidanceScale = .fin 0 <;>
    by_cases h3 : r.Width = 0 <;> by_cases h4 : r.Height = 0 <;>
    by_cases h5 : r.Seed = 0 <;>
    simp [h1, h2, h3, h4, h5, GoFloat.eq_zero_iff]

/-- The defaulted request, written out field by field. -/
theorem SetDefaults_eq (r : TextToImageRequest) :
    SetDefaults r =
      { Prompt := r.Prompt
        NegativePrompt := r.NegativePrompt
        Steps := if r.Steps = 0 then 20 else r.Steps
        GuidanceScale := if r.GuidanceScale = .fin 0 then .fin 4 else r.GuidanceScale
        Width := if r.Width = 0 then 512 else r.Width
        Height := if r.Height = 0 then 512 else r.Height
        Seed := if r.Seed = 0 then -1 else r.Seed } := by
  unfold SetDefaults
  by_cases h1 : r.Steps = 0 <;> by_cases h2 : r.GuidanceScale = .fin 0 <;>
    by_cases h3 : r.Width = 0 <;> by_cases h4 : r.Height = 0 <;>
    by_cases h5 : r.Seed = 0 <;>
    simp [h1, h2, h3, h4, h5, GoFloat.eq_zero_iff]

/-- The validator returns nil exactly when none of its five tests fires. -/
theorem ValidateTextToImageRequest_eq_nil (fmtF : GoFloat → String) (prompt : String)
    (steps : Int) (g : GoFloat) (width height : Int) :
    ValidateTextToImageRequest fmtF prompt steps g width height = .nil ↔
      (prompt ≠ "" ∧ ¬ (steps < 1 ∨ steps > 150) ∧
        ¬ (GoFloat.lt g (.fin 1) = true ∨ GoFloat.gt g (.fin 20) = true) ∧
        ¬ (width < 64 ∨ width > 4096) ∧ ¬ (height < 64 ∨ height > 4096)) := by
  unfold ValidateTextToImageRequest
  split_ifs <;> simp_all

/-- The verdict of the validator call of `GenerateImage`, in terms of the request as the caller
supplied it: the request is accepted exactly when the prompt is non-empty and each of steps,
guidance scale, width and height is either zero or inside its range. -/
theorem validated_nil_iff (env : Env) (r : TextToImageRequest) (hg : r.GuidanceScale ≠ .nan) :
    validated env r = .nil ↔
      (r.Prompt ≠ "" ∧ (r.Steps = 0 ∨ (1 ≤ r.Steps ∧ r.Steps ≤ 150)) ∧
        (r.GuidanceScale = .fin 0 ∨ ∃ q : ℚ, r.GuidanceScale = .fin q ∧ 1 ≤ q ∧ q ≤ 20) ∧
        (r.Width = 0 ∨ (64 ≤ r.Width ∧ r.Width ≤ 4096)) ∧
        (r.Height = 0 ∨ (64 ≤ r.Height ∧ r.Height ≤ 4096))) := by
  have e := SetDefaults_eq r
  have hP : (SetDefaults r).Prompt = r.Prompt := by rw [e]
  have hS : (SetDefaults r).Steps = if r.Steps = 0 then 20 else r.Steps := by rw [e]
  have hG : (SetDefaults r).GuidanceScale =
      if r.GuidanceScale = .fin 0 then .fin 4 else r.GuidanceScale := by rw [e]
  have hW : (SetDefaults r).Width = if r.Width = 0 then 512 else r.Width := by rw [e]
  have hH : (SetDefaults r).Height = if r.Height = 0 then 512 else r.Height := by rw [e]
  unfold validated
  rw [ValidateTextToImageRequest_eq_nil, hP, hS, hG, hW, hH]
  have c1 : ¬ ((if r.Steps = 0 then (20 : Int) else r.Steps) < 1 ∨
      (if r.Steps = 0 then (20 : Int) else r.Steps) > 150) ↔
      (r.Steps = 0 ∨ (1 ≤ r.Steps ∧ r.Steps ≤ 150)) := by
    split_ifs <;> omega
  have c3 : ¬ ((if r.Width = 0 then (512 : Int) else r.Width) < 64 ∨
      (if r.Width = 0 then (512 : Int) else r.Width) > 4096) ↔
      (r.Width = 0 ∨ (64 ≤ r.Width ∧ r.Width ≤ 4096)) := by
    split_ifs <;> omega
  have c4 : ¬ ((if r.Height = 0 then (512 : Int) else r.Height) < 64 ∨
      (if r.Height = 0 then (512 : Int) else r.Height) > 4096) ↔
      (r.Height = 0 ∨ (64 ≤ r.Height ∧ r.Height ≤ 4096)) := by
    split_ifs <;> omega
  have c2 : ¬ (GoFloat.lt (if r.GuidanceScale = .fin 0 then .fin 4 else r.GuidanceScale)
        (.fin 1) = true ∨
      GoFloat.gt (if r.GuidanceScale = .fin 0 then .fin 4 else r.GuidanceScale)
        (.fin 20) = true) ↔
      (r.GuidanceScale = .fin 0 ∨ ∃ q : ℚ, r.GuidanceScale = .fin q ∧ 1 ≤ q ∧ q ≤ 20) := by
    by_cases h0 : r.GuidanceScale = .fin 0
    · simp only [h0, if_true, true_or, iff_true]
      rw [guidance_check_iff (.fin 4) (by decide), not_not]
      exact ⟨4, rfl, by norm_num, by norm_num⟩
    · simp only [h0, if_false, false_or]
      rw [guidance_check_iff r.GuidanceScale hg, not_not]
  rw [c1, c2, c3, c4]

/-- The JSON members of a defaulted request: the prompt, the negative prompt unless it is
empty, and then all five of steps, guidance_scale, width, height and seed. -/
theorem jsonMembers_SetDefaults (r : TextToImageRequest) :
    jsonMembers (SetDefaults r) =
      [("prompt", .str r.Prompt)] ++
      (if r.NegativePrompt = "" then [] else [("negative_prompt", .str r.NegativePrompt)]) ++
      [ ("steps", .int (SetDefaults r).Steps),
        ("guidance_scale", .num (SetDefaults r).GuidanceScale),
        ("width", .int (SetDefaults r).Width),
        ("height", .int (SetDefaults r).Height),
        ("seed", .int (SetDefaults r).Seed) ] := by
  obtain ⟨n1, n2, n3, n4, n5⟩ := SetDefaults_nonzero r
  have e := SetDefaults_eq r
  have hP : (SetDefaults r).Prompt = r.Prompt := by rw [e]
  have hN : (SetDefaults r).NegativePrompt = r.NegativePrompt := by rw [e]
  simp only [jsonMembers, n1, n2, n3, n4, n5, hP, hN, if_false, Bool.false_eq_true,
    List.append_assoc, List.singleton_append, List.cons_append, List.nil_append]

/-- C19. After `SetDefaults` none of Steps, GuidanceScale, Width, Height and Seed is zero, and
the request `GenerateImage` validates and serialises is the defaulted one.  Validation accepts
a request exactly when its prompt is non-empty and each of steps, guidance scale, width and
height is zero or in range, so a zero is never rejected; a zero supplied for a field behaves
exactly as its default (seed 0 as seed -1).  When `json.Marshal` encodes the members selected
by the field tags, the body of every HTTP request issued encodes a member list that holds all
five keys, with seed -1 for a requested seed of 0. -/
theorem GenerateImage_never_zero (env : Env) (c : Client) (ctx : Context)
    (r : TextToImageRequest) (encode : List (String × JsonValue) → String × GoError)
    (hm : ∀ q, env.marshal q = encode (jsonMembers q)) :
    ((SetDefaults r).Steps ≠ 0 ∧ GoFloat.eq (SetDefaults r).GuidanceScale (.fin 0) = false ∧
      (SetDefaults r).Width ≠ 0 ∧ (SetDefaults r).Height ≠ 0 ∧ (SetDefaults r).Seed ≠ 0) ∧
    ((GenerateImage env c ctx r).req = SetDefaults r ∧
      ∀ timeout hreq, Event.httpDo timeout hreq ∈ (GenerateImage env c ctx r).trace →
        hreq.body = some (env.marshal (SetDefaults r)).1 ∧
        hreq.body = some (encode
          ([("prompt", .str r.Prompt)] ++
            (if r.NegativePrompt = "" then []
              else [("negative_prompt", .str r.NegativePrompt)]) ++
            [ ("steps", .int (SetDefaults r).Steps),
              ("guidance_scale", .num (SetDefaults r).GuidanceScale),
              ("width", .int (SetDefaults r).Width),
              ("height", .int (SetDefaults r).Height),
              ("seed", .int (SetDefaults r).Seed) ])).1) ∧
    (r.Seed = 0 → ("seed", JsonValue.int (-1)) ∈ jsonMembers (SetDefaults r)) ∧
    (r.GuidanceScale ≠ .nan →
      (validated env r = .nil ↔
        (r.Prompt ≠ "" ∧ (r.Steps = 0 ∨ (1 ≤ r.Steps ∧ r.Steps ≤ 150)) ∧
          (r.GuidanceScale = .fin 0 ∨ ∃ q : ℚ, r.GuidanceScale = .fin q ∧ 1 ≤ q ∧ q ≤ 20) ∧
          (r.Width = 0 ∨ (64 ≤ r.Width ∧ r.Width ≤ 4096)) ∧
          (r.Height = 0 ∨ (64 ≤ r.Height ∧ r.Height ≤ 4096))))) ∧
    (GenerateImage env c ctx { r with Steps := 0 } =
        GenerateImage env c ctx { r with Steps := 20 } ∧
      GenerateImage env c ctx { r with GuidanceScale := .fin 0 } =
        GenerateImage env c ctx { r with GuidanceScale := .fin 4 } ∧
      GenerateImage env c ctx { r with Width := 0 } =
        GenerateImage env c ctx { r with Width := 512 } ∧
      GenerateImage env c ctx { r with Height := 0 } =
        GenerateImage env c ctx { r with Height := 512 } ∧
      GenerateImage env c ctx { r with Seed := 0 } =
        GenerateImage env c ctx { r with Seed := -1 }) := by
  obtain ⟨-, -, -, -, z5⟩ := SetDefaults_zero_passes r
  refine ⟨SetDefaults_nonzero r, ⟨GenerateImage_req env c ctx r, ?_⟩, ?_,
    fun hg => validated_nil_iff env r hg, ⟨?_, ?_, ?_, ?_, ?_⟩⟩
  · intro timeout hreq h
    have hb := GenerateImage_http_body env c ctx r timeout hreq h
    refine ⟨hb, ?_⟩
    rw [hb, hm, jsonMembers_SetDefaults]
  · intro h
    rw [jsonMembers_SetDefaults, z5 h]
    simp
  · exact GenerateImage_congr env c ctx _ _ (by simp [SetDefaults_eq])
  · exact GenerateImage_congr env c ctx _ _ (by simp [SetDefaults_eq])
  · exact GenerateImage_congr env c ctx _ _ (by simp [SetDefaults_eq])
  · exact GenerateImage_congr env c ctx _ _ (by simp [SetDefaults_eq])
  · exact GenerateImage_congr env c ctx _ _ (by simp [SetDefaults_eq])

/-- A request with all five fields zero is accepted by the validator, and the one HTTP request
issued carries all five keys with the default values. -/
theorem GenerateImage_never_zero_witness :
    validated (tagEnv (none, .lib "connection refused") (⟨[]⟩, .nil)) catRequest = .nil ∧
      (some "prompt=a cat;steps=20;guidance_scale=?;width=512;height=512;seed=-1" :
          Option String) =
        some (renderMembers
          ([("prompt", .str catRequest.Prompt)] ++
            (if catRequest.NegativePrompt = "" then []
              else [("negative_prompt", .str catRequest.NegativePrompt)]) ++
            [ ("steps", .int (SetDefaults catRequest).Steps),
              ("guidance_scale", .num (SetDefaults catRequest).GuidanceScale),
              ("width", .int (SetDefaults catRequest).Width),
              ("height", .int (SetDefaults catRequest).Height),
              ("seed", .int (SetDefaults catRequest).Seed) ])).1 ∧
      ("seed", JsonValue.int (-1)) ∈ jsonMembers (SetDefaults catRequest) :=
  ⟨((GenerateImage_never_zero (tagEnv (none, .lib "connection refused") (⟨[]⟩, .nil))
        localClient 0 catRequest renderMembers (fun _ => rfl)).2.2.2.1 (by decide)).mpr
      ⟨by decide, Or.inl rfl, Or.inl rfl, Or.inl rfl, Or.inl rfl⟩,
    ((GenerateImage_never_zero (tagEnv (none, .lib "connection refused") (⟨[]⟩, .nil))
        localClient 0 catRequest renderMembers (fun _ => rfl)).2.1.2 300000000000
      { ctx := 0, method := "POST", url := "http://127.0.0.1:7860/sdapi/v1/txt2img",
        body := some "prompt=a cat;steps=20;guidance_scale=?;width=512;height=512;seed=-1",
        contentType := "application/json" }
      (by decide)).2,
    (GenerateImage_never_zero (tagEnv (none, .lib "connection refused") (⟨[]⟩, .nil))
        localClient 0 catRequest renderMembers (fun _ => rfl)).2.2.1 rfl⟩

end DrawThings
